import Mathlib

/-!
Verification of the multi-domain OAuth orchestration and token-binding
subsystem of the marketplace worker/backend.

The definitions below are shallow embeddings of the JavaScript source:

* `base64urlEncode`, `base64urlDecode` — the byte/char codecs from the
  worker (`base64urlEncode`, `base64urlDecode` in the worker source and
  the matching helper in `backend/server.js`);
* `signJWT`, `verifyJWT` — the Web-Crypto JWT codec of the worker;
* `generateCodeVerifier`, `generateCodeChallenge` — the PKCE generator;
* the OAuth flow handlers (`handleGoogleAuth`, `handleGoogleCallback`,
  `handleAirtableAuth`, `handleAirtableCallback`) and the protected API
  endpoints of `backend/server.js`.

Platform primitives (HMAC-SHA256, SHA-256, `JSON.stringify`/`JSON.parse`
on the token payload, and the base64+JSON state wrapper of the Google
flow) are modelled as abstract codecs bundled with the laws the
platform guarantees; every other step is translated directly.

Machine integers do not occur: JavaScript numbers used here are
timestamps and byte values, modelled as `Nat` (byte values carry
explicit `< 256` bounds where the encoding depends on them).
-/

set_option linter.unusedVariables false

namespace MDM

/-! ## Base64 / base64url codec (worker `base64urlEncode` / `base64urlDecode`) -/

/-- The standard base64 alphabet used by `btoa` / `Buffer.toString("base64")`. -/
def b64Alphabet : List Char :=
  ['A','B','C','D','E','F','G','H','I','J','K','L','M','N','O','P','Q','R','S',
   'T','U','V','W','X','Y','Z','a','b','c','d','e','f','g','h','i','j','k','l',
   'm','n','o','p','q','r','s','t','u','v','w','x','y','z','0','1','2','3','4',
   '5','6','7','8','9','+','/']

/-- Character for a 6-bit group. -/
def b64Char (n : Nat) : Char := b64Alphabet.getD n '?'

/-- Index of a base64 character (inverse of `b64Char` on the alphabet). -/
def b64Index (c : Char) : Nat := b64Alphabet.indexOf c

/-- Standard base64 encoding with `=` padding, as produced by `btoa`
(operating on bytes, 3 at a time). -/
def base64Encode : List Nat → List Char
  | [] => []
  | [b1] => [b64Char (b1 / 4), b64Char (b1 % 4 * 16), '=', '=']
  | [b1, b2] =>
      [b64Char (b1 / 4), b64Char (b1 % 4 * 16 + b2 / 16), b64Char (b2 % 16 * 4), '=']
  | b1 :: b2 :: b3 :: rest =>
      b64Char (b1 / 4) :: b64Char (b1 % 4 * 16 + b2 / 16) ::
      b64Char (b2 % 16 * 4 + b3 / 64) :: b64Char (b3 % 64) :: base64Encode rest

/-- The worker's `base64urlEncode`: standard base64, then
`.replace(/\+/g,"-").replace(/\//g,"_").replace(/=/g,"")`. -/
def base64urlEncode (bs : List Nat) : List Char :=
  ((base64Encode bs).map
      (fun c => if c = '+' then '-' else if c = '/' then '_' else c)).filter
    (fun c => c ≠ '=')

/-- Standard base64 decoding of a padded string, as done by `atob`
(4 characters at a time, honouring `=` padding). -/
def base64Decode : List Char → List Nat
  | c1 :: c2 :: c3 :: c4 :: rest =>
      if c3 = '=' then [b64Index c1 * 4 + b64Index c2 / 16]
      else if c4 = '=' then
        [b64Index c1 * 4 + b64Index c2 / 16,
         b64Index c2 % 16 * 16 + b64Index c3 / 4]
      else
        (b64Index c1 * 4 + b64Index c2 / 16) ::
        (b64Index c2 % 16 * 16 + b64Index c3 / 4) ::
        (b64Index c3 % 4 * 64 + b64Index c4) :: base64Decode rest
  | _ => []

/-- Re-padding loop of the worker's `base64urlDecode`:
`while (str.length % 4) str += "="`. -/
def padB64 (s : List Char) : List Char :=
  s ++ List.replicate ((4 - s.length % 4) % 4) '='

/-- The worker's `base64urlDecode`: `-`/`_` restored to `+`/`/`, re-padded,
then `atob`. -/
def base64urlDecode (s : List Char) : List Nat :=
  base64Decode
    (padB64 (s.map (fun c => if c = '-' then '+' else if c = '_' then '/' else c)))

/-! ### Facts about the base64 codec -/

/-- The character substitution applied by `base64urlEncode`. -/
def urlSub (c : Char) : Char := if c = '+' then '-' else if c = '/' then '_' else c

/-- The character substitution applied by `base64urlDecode`. -/
def urlUnsub (c : Char) : Char := if c = '-' then '+' else if c = '_' then '/' else c

lemma base64urlEncode_eq (bs : List Nat) :
    base64urlEncode bs = ((base64Encode bs).map urlSub).filter (fun c => c ≠ '=') := rfl

lemma base64urlDecode_eq (s : List Char) :
    base64urlDecode s = base64Decode (padB64 (s.map urlUnsub)) := rfl

lemma b64Char_cases (n : Nat) : b64Char n ∈ b64Alphabet ∨ b64Char n = '?' := by
  unfold b64Char List.getD
  rcases h : b64Alphabet.get? n with _ | c
  · right; rfl
  · left
    simpa using List.get?_mem h

lemma b64Char_notin (n : Nat) : b64Char n ∉ (['=', '.', '-', '_'] : List Char) := by
  rcases b64Char_cases n with h | h
  · intro hmem
    have : ∀ c ∈ b64Alphabet, c ∉ (['=', '.', '-', '_'] : List Char) := by decide
    exact this _ h hmem
  · rw [h]; decide

lemma b64Index_b64Char {n : Nat} (h : n < 64) : b64Index (b64Char n) = n := by
  have key : ∀ i : Fin 64, b64Index (b64Char i.val) = i.val := by decide
  exact key ⟨n, h⟩

lemma urlSub_b64Char_ne_eq (n : Nat) : urlSub (b64Char n) ≠ '=' := by
  have h := b64Char_notin n
  simp only [List.mem_cons, not_or] at h
  unfold urlSub
  split_ifs <;> simp_all

lemma urlUnsub_urlSub_b64Char (n : Nat) : urlUnsub (urlSub (b64Char n)) = b64Char n := by
  have h := b64Char_notin n
  simp only [List.mem_cons, not_or] at h
  unfold urlSub urlUnsub
  split_ifs <;> simp_all

lemma mem_base64Encode {bs : List Nat} {c : Char} (hc : c ∈ base64Encode bs) :
    c = '=' ∨ ∃ n, c = b64Char n := by
  induction bs using base64Encode.induct with
  | case1 => simp [base64Encode] at hc
  | case2 b1 =>
      simp only [base64Encode, List.mem_cons, List.not_mem_nil, or_false] at hc
      rcases hc with h | h | h | h <;> first | (left; exact h) | (right; exact ⟨_, h⟩)
  | case3 b1 b2 =>
      simp only [base64Encode, List.mem_cons, List.not_mem_nil, or_false] at hc
      rcases hc with h | h | h | h <;> first | (left; exact h) | (right; exact ⟨_, h⟩)
  | case4 b1 b2 b3 rest ih =>
      simp only [base64Encode, List.mem_cons] at hc
      rcases hc with h | h | h | h | h
      · exact Or.inr ⟨_, h⟩
      · exact Or.inr ⟨_, h⟩
      · exact Or.inr ⟨_, h⟩
      · exact Or.inr ⟨_, h⟩
      · exact ih h

/-- Every character of a `base64urlEncode` output avoids `+`, `/`, `=` and `.`. -/
lemma base64urlEncode_chars {bs : List Nat} {c : Char} (hc : c ∈ base64urlEncode bs) :
    c ≠ '+' ∧ c ≠ '/' ∧ c ≠ '=' ∧ c ≠ '.' := by
  rw [base64urlEncode_eq] at hc
  have hne : c ≠ '=' := by
    have := List.of_mem_filter hc
    simpa using this
  have hmem : c ∈ (base64Encode bs).map urlSub := List.mem_of_mem_filter hc
  rcases List.mem_map.1 hmem with ⟨c0, hc0, rfl⟩
  rcases mem_base64Encode hc0 with h | ⟨n, rfl⟩
  · subst h
    exact absurd (by decide : urlSub '=' = '=') hne
  · have hnotin := b64Char_notin n
    simp only [List.mem_cons, not_or] at hnotin
    refine ⟨?_, ?_, hne, ?_⟩ <;> (unfold urlSub; split_ifs <;> simp_all)

lemma b64Char_ne_eq (n : Nat) : b64Char n ≠ '=' := by
  have h := b64Char_notin n
  simp only [List.mem_cons, not_or] at h
  exact h.1

lemma filter_ne_eq_cons {c : Char} (h : c ≠ '=') (l : List Char) :
    (c :: l).filter (fun x => x ≠ '=') = c :: l.filter (fun x => x ≠ '=') := by
  simp [List.filter_cons, h]

lemma filter_ne_eq_drop (l : List Char) :
    ('=' :: l).filter (fun x => x ≠ '=') = l.filter (fun x => x ≠ '=') := by
  simp [List.filter_cons]

lemma base64urlEncode_one (b1 : Nat) :
    base64urlEncode [b1] = [urlSub (b64Char (b1 / 4)), urlSub (b64Char (b1 % 4 * 16))] := by
  rw [base64urlEncode_eq]
  have hE : base64Encode [b1] = [b64Char (b1 / 4), b64Char (b1 % 4 * 16), '=', '='] := rfl
  rw [hE]
  simp only [List.map_cons, List.map_nil]
  have hu : urlSub '=' = '=' := rfl
  rw [hu, filter_ne_eq_cons (urlSub_b64Char_ne_eq _), filter_ne_eq_cons (urlSub_b64Char_ne_eq _),
    filter_ne_eq_drop, filter_ne_eq_drop]
  rfl

lemma base64urlEncode_two (b1 b2 : Nat) :
    base64urlEncode [b1, b2] =
      [urlSub (b64Char (b1 / 4)), urlSub (b64Char (b1 % 4 * 16 + b2 / 16)),
       urlSub (b64Char (b2 % 16 * 4))] := by
  rw [base64urlEncode_eq]
  have hE : base64Encode [b1, b2] =
      [b64Char (b1 / 4), b64Char (b1 % 4 * 16 + b2 / 16), b64Char (b2 % 16 * 4), '='] := rfl
  rw [hE]
  simp only [List.map_cons, List.map_nil]
  have hu : urlSub '=' = '=' := rfl
  rw [hu, filter_ne_eq_cons (urlSub_b64Char_ne_eq _), filter_ne_eq_cons (urlSub_b64Char_ne_eq _),
    filter_ne_eq_cons (urlSub_b64Char_ne_eq _), filter_ne_eq_drop]
  rfl

lemma base64urlEncode_cons3 (b1 b2 b3 : Nat) (rest : List Nat) :
    base64urlEncode (b1 :: b2 :: b3 :: rest) =
      urlSub (b64Char (b1 / 4)) :: urlSub (b64Char (b1 % 4 * 16 + b2 / 16)) ::
      urlSub (b64Char (b2 % 16 * 4 + b3 / 64)) :: urlSub (b64Char (b3 % 64)) ::
      base64urlEncode rest := by
  rw [base64urlEncode_eq, base64urlEncode_eq]
  have hE : base64Encode (b1 :: b2 :: b3 :: rest) =
      b64Char (b1 / 4) :: b64Char (b1 % 4 * 16 + b2 / 16) ::
      b64Char (b2 % 16 * 4 + b3 / 64) :: b64Char (b3 % 64) :: base64Encode rest := rfl
  rw [hE]
  simp only [List.map_cons]
  rw [filter_ne_eq_cons (urlSub_b64Char_ne_eq _), filter_ne_eq_cons (urlSub_b64Char_ne_eq _),
    filter_ne_eq_cons (urlSub_b64Char_ne_eq _), filter_ne_eq_cons (urlSub_b64Char_ne_eq _)]

lemma base64urlEncode_length (bs : List Nat) :
    (base64urlEncode bs).length = (4 * bs.length + 2) / 3 := by
  induction bs using base64Encode.induct with
  | case1 => rfl
  | case2 b1 => rw [base64urlEncode_one]; simp
  | case3 b1 b2 => rw [base64urlEncode_two]; simp
  | case4 b1 b2 b3 rest ih =>
      rw [base64urlEncode_cons3]
      simp only [List.length_cons, ih]
      omega

lemma padB64_cons4 (c1 c2 c3 c4 : Char) (t : List Char) :
    padB64 (c1 :: c2 :: c3 :: c4 :: t) = c1 :: c2 :: c3 :: c4 :: padB64 t := by
  unfold padB64
  have h : (4 - (c1 :: c2 :: c3 :: c4 :: t).length % 4) % 4 =
      (4 - t.length % 4) % 4 := by
    simp only [List.length_cons]
    omega
  rw [h]
  simp

lemma base64urlDecode_encode :
    ∀ bs : List Nat, (∀ b ∈ bs, b < 256) → base64urlDecode (base64urlEncode bs) = bs := by
  intro bs
  induction bs using base64Encode.induct with
  | case1 => intro _; rfl
  | case2 b1 =>
      intro hb
      have h1 : b1 < 256 := hb b1 (by simp)
      rw [base64urlDecode_eq, base64urlEncode_one]
      simp only [List.map_cons, List.map_nil, urlUnsub_urlSub_b64Char]
      have hpad : padB64 [b64Char (b1 / 4), b64Char (b1 % 4 * 16)] =
          [b64Char (b1 / 4), b64Char (b1 % 4 * 16), '=', '='] := by
        unfold padB64; rfl
      rw [hpad]
      simp only [base64Decode, if_pos rfl]
      rw [b64Index_b64Char (by omega), b64Index_b64Char (by omega)]
      have : b1 / 4 * 4 + b1 % 4 * 16 / 16 = b1 := by omega
      rw [this]
      simp
  | case3 b1 b2 =>
      intro hb
      have h1 : b1 < 256 := hb b1 (by simp)
      have h2 : b2 < 256 := hb b2 (by simp)
      rw [base64urlDecode_eq, base64urlEncode_two]
      simp only [List.map_cons, List.map_nil, urlUnsub_urlSub_b64Char]
      have hpad : padB64 [b64Char (b1 / 4), b64Char (b1 % 4 * 16 + b2 / 16),
          b64Char (b2 % 16 * 4)] =
          [b64Char (b1 / 4), b64Char (b1 % 4 * 16 + b2 / 16), b64Char (b2 % 16 * 4), '='] := by
        unfold padB64; rfl
      rw [hpad]
      simp only [base64Decode, if_neg (b64Char_ne_eq _), if_pos rfl]
      rw [b64Index_b64Char (by omega), b64Index_b64Char (by omega),
        b64Index_b64Char (by omega)]
      have e1 : b1 / 4 * 4 + (b1 % 4 * 16 + b2 / 16) / 16 = b1 := by omega
      have e2 : (b1 % 4 * 16 + b2 / 16) % 16 * 16 + b2 % 16 * 4 / 4 = b2 := by omega
      rw [e1, e2]
      simp
  | case4 b1 b2 b3 rest ih =>
      intro hb
      have h1 : b1 < 256 := hb b1 (by simp)
      have h2 : b2 < 256 := hb b2 (by simp)
      have h3 : b3 < 256 := hb b3 (by simp)
      have hrest : ∀ b ∈ rest, b < 256 := fun b hbm => hb b (by simp [hbm])
      rw [base64urlDecode_eq, base64urlEncode_cons3]
      simp only [List.map_cons, urlUnsub_urlSub_b64Char]
      rw [padB64_cons4]
      simp only [base64Decode, if_neg (b64Char_ne_eq _)]
      rw [b64Index_b64Char (by omega), b64Index_b64Char (by omega),
        b64Index_b64Char (by omega), b64Index_b64Char (by omega)]
      have e1 : b1 / 4 * 4 + (b1 % 4 * 16 + b2 / 16) / 16 = b1 := by omega
      have e2 : (b1 % 4 * 16 + b2 / 16) % 16 * 16 + (b2 % 16 * 4 + b3 / 64) / 4 = b2 := by
        omega
      have e3 : (b2 % 16 * 4 + b3 / 64) % 4 * 64 + b3 % 64 = b3 := by omega
      rw [e1, e2, e3]
      have htail := ih hrest
      rw [base64urlDecode_eq] at htail
      rw [htail]

/-! ## Session token codec (worker `signJWT` / `verifyJWT`) -/

/-- `token.split(".")`, on character lists, with JavaScript semantics
(`"".split(".") = [""]`). -/
def splitOnDot : List Char → List (List Char)
  | [] => [[]]
  | c :: rest =>
      match splitOnDot rest with
      | [] => [[]]
      | p :: ps => if c = '.' then [] :: p :: ps else (c :: p) :: ps

/-- The JWT payload object as constructed by the Google callback and
updated by the Airtable callback.  `exp` is optional because `verifyJWT`
guards its expiry check with the JavaScript truthiness of `payload.exp`. -/
structure Payload where
  userId : String
  email : String
  name : String
  picture : String
  domain : String
  googleAccessToken : Option String
  googleRefreshToken : Option String
  airtableAccessToken : Option String
  airtableRefreshToken : Option String
  iat : Nat
  exp : Option Nat
deriving Repr, DecidableEq

/-- The Web-Crypto primitives used by the worker, abstracted: an
HMAC-SHA256 over the UTF-8 bytes of secret and data, and SHA-256 over
bytes.  `hmac_lt` records that a digest is a byte string. -/
structure CryptoApi where
  hmacSHA256 : List Char → List Char → List Nat
  sha256 : List Nat → List Nat
  hmac_lt : ∀ s d b, b ∈ hmacSHA256 s d → b < 256

/-- `JSON.stringify` / `JSON.parse` restricted to the token payload
object, abstracted with the inverse law the platform guarantees and the
fact that the serialisation is a byte string (UTF-8). -/
structure PayloadCodec where
  stringify : Payload → List Nat
  parse : List Nat → Option Payload
  parse_stringify : ∀ p, parse (stringify p) = some p
  stringify_lt : ∀ p b, b ∈ stringify p → b < 256

/-- UTF-8 bytes of `JSON.stringify({ alg: "HS256", typ: "JWT" })`. -/
def headerBytes : List Nat :=
  [123, 34, 97, 108, 103, 34, 58, 34, 72, 83, 50, 53, 54, 34, 44,
   34, 116, 121, 112, 34, 58, 34, 74, 87, 84, 34, 125]

/-- The worker's `signJWT`: base64url-encode header and payload, HMAC the
dotted pair, append the encoded signature. -/
def signJWT (C : CryptoApi) (PC : PayloadCodec) (payload : Payload)
    (secret : List Char) : List Char :=
  let encodedHeader := base64urlEncode headerBytes
  let encodedPayload := base64urlEncode (PC.stringify payload)
  let data := encodedHeader ++ '.' :: encodedPayload
  let signature := C.hmacSHA256 secret data
  let encodedSignature := base64urlEncode signature
  encodedHeader ++ '.' :: encodedPayload ++ '.' :: encodedSignature

/-- The failure modes of `verifyJWT` (each is a thrown `Error` in the
source; `invalidPayload` is the implicit `JSON.parse` failure). -/
inductive JWTError where
  | invalidFormat
  | invalidSignature
  | invalidPayload
  | expired
deriving Repr, DecidableEq

/-- The worker's `verifyJWT`.  `nowMs` is `Date.now()`; the source
compares `payload.exp < Date.now() / 1000` on rationals, which for an
integer `exp` is exactly `exp * 1000 < nowMs`; the comparison is guarded
by the truthiness of `payload.exp`, so a missing or zero `exp` skips the
expiry check. -/
def verifyJWT (C : CryptoApi) (PC : PayloadCodec) (token : List Char)
    (secret : List Char) (nowMs : Nat) : Except JWTError Payload :=
  match splitOnDot token with
  | [encodedHeader, encodedPayload, encodedSignature] =>
      let data := encodedHeader ++ '.' :: encodedPayload
      let signature := base64urlDecode encodedSignature
      if signature = C.hmacSHA256 secret data then
        match PC.parse (base64urlDecode encodedPayload) with
        | some payload =>
            match payload.exp with
            | some e => if e ≠ 0 ∧ e * 1000 < nowMs then .error .expired else .ok payload
            | none => .ok payload
        | none => .error .invalidPayload
      else .error .invalidSignature
  | _ => .error .invalidFormat

/-! ### Sign/verify round trip -/

lemma splitOnDot_no_dot {s : List Char} (h : '.' ∉ s) : splitOnDot s = [s] := by
  induction s with
  | nil => rfl
  | cons c rest ih =>
      have hc : c ≠ '.' := fun hc => h (by simp [hc])
      have hrest : '.' ∉ rest := fun hm => h (by simp [hm])
      rw [splitOnDot, ih hrest]
      simp [hc]

lemma splitOnDot_ne_nil (t : List Char) : splitOnDot t ≠ [] := by
  cases t with
  | nil => simp [splitOnDot]
  | cons c rest =>
      rw [splitOnDot]
      rcases splitOnDot rest with _ | ⟨p, ps⟩
      · simp
      · by_cases hc : c = '.' <;> simp [hc]

lemma splitOnDot_append {h : List Char} (hh : '.' ∉ h) (t : List Char) :
    splitOnDot (h ++ '.' :: t) = h :: splitOnDot t := by
  induction h with
  | nil =>
      rw [List.nil_append, splitOnDot]
      rcases ht : splitOnDot t with _ | ⟨p, ps⟩
      · exact absurd ht (splitOnDot_ne_nil t)
      · simp
  | cons c rest ih =>
      have hc : c ≠ '.' := fun hc => hh (by simp [hc])
      have hrest : '.' ∉ rest := fun hm => hh (by simp [hm])
      rw [List.cons_append, splitOnDot, ih hrest]
      simp [hc]

lemma no_dot_base64urlEncode (bs : List Nat) : '.' ∉ base64urlEncode bs := by
  intro hmem
  exact (base64urlEncode_chars hmem).2.2.2 rfl

/-- Splitting a signed token recovers exactly the three encoded parts. -/
lemma splitOnDot_signJWT (C : CryptoApi) (PC : PayloadCodec) (payload : Payload)
    (secret : List Char) :
    splitOnDot (signJWT C PC payload secret) =
      [base64urlEncode headerBytes, base64urlEncode (PC.stringify payload),
       base64urlEncode (C.hmacSHA256 secret
         (base64urlEncode headerBytes ++ '.' :: base64urlEncode (PC.stringify payload)))] := by
  show splitOnDot (base64urlEncode headerBytes ++ '.' ::
      (base64urlEncode (PC.stringify payload) ++ '.' ::
        base64urlEncode (C.hmacSHA256 secret
          (base64urlEncode headerBytes ++ '.' :: base64urlEncode (PC.stringify payload))))) = _
  rw [splitOnDot_append (no_dot_base64urlEncode _),
    splitOnDot_append (no_dot_base64urlEncode _),
    splitOnDot_no_dot (no_dot_base64urlEncode _)]

/-- Verifying a token signed with the same secret succeeds and returns the
signed payload, provided the payload's `exp` does not make it already
expired at `nowMs` (a missing or zero `exp` always passes). -/
lemma verify_signJWT (C : CryptoApi) (PC : PayloadCodec) (payload : Payload)
    (secret : List Char) (nowMs : Nat)
    (hexp : ∀ e, payload.exp = some e → e = 0 ∨ nowMs ≤ e * 1000) :
    verifyJWT C PC (signJWT C PC payload secret) secret nowMs = .ok payload := by
  unfold verifyJWT
  rw [splitOnDot_signJWT]
  have hsig : base64urlDecode (base64urlEncode (C.hmacSHA256 secret
      (base64urlEncode headerBytes ++ '.' :: base64urlEncode (PC.stringify payload)))) =
      C.hmacSHA256 secret
        (base64urlEncode headerBytes ++ '.' :: base64urlEncode (PC.stringify payload)) :=
    base64urlDecode_encode _ (fun b hb => C.hmac_lt _ _ b hb)
  have hpl : base64urlDecode (base64urlEncode (PC.stringify payload)) =
      PC.stringify payload :=
    base64urlDecode_encode _ (fun b hb => PC.stringify_lt _ b hb)
  simp only [hsig, hpl, if_pos rfl, PC.parse_stringify]
  rcases he : payload.exp with _ | e
  · rfl
  · have := hexp e he
    have hcond : ¬(e ≠ 0 ∧ e * 1000 < nowMs) := by omega
    simp [hcond]

/-! ## PKCE generator (worker `generateCodeVerifier` / `generateCodeChallenge`) -/

/-- `generateCodeVerifier`: base64url-encode 32 random bytes; the entropy
source (`crypto.getRandomValues` on a 32-byte array) is a parameter. -/
def generateCodeVerifier (randomBytes : List Nat) : List Char :=
  base64urlEncode randomBytes

/-- `generateCodeChallenge`: base64url-encode the SHA-256 digest of the
verifier's UTF-8 bytes. -/
def generateCodeChallenge (C : CryptoApi) (verifier : List Char) : List Char :=
  base64urlEncode (C.sha256 (verifier.map Char.toNat))

/-! ## Primary (Google) OAuth flow -/

/-- The object serialised into the primary flow's `state` parameter. -/
structure GoogleState where
  return_domain : String
  timestamp : Nat
deriving Repr, DecidableEq

/-- `btoa(JSON.stringify(stateData))` and its inverse, abstracted with the
round-trip law those platform primitives satisfy. -/
structure GStateCodec where
  enc : GoogleState → String
  dec : String → Option GoogleState
  dec_enc : ∀ s, dec (enc s) = some s
  enc_ne : ∀ s, enc s ≠ ""

/-- Result of `GET /auth/google` (`handleGoogleAuth`). -/
inductive GoogleAuthResult where
  | missingReturnDomain
  | redirect (state : String)
deriving Repr, DecidableEq

/-- `handleGoogleAuth`: requires a truthy `return_domain`, then redirects to
the provider with `state = btoa(JSON.stringify({return_domain, timestamp}))`.
The redirect is represented by the `state` value it embeds. -/
def handleGoogleAuth (GS : GStateCodec) (returnDomain : Option String)
    (nowMs : Nat) : GoogleAuthResult :=
  match returnDomain with
  | none => .missingReturnDomain
  | some d => if d = "" then .missingReturnDomain else .redirect (GS.enc ⟨d, nowMs⟩)

/-- Parsed JSON of the provider's token-endpoint response. -/
structure GoogleTokens where
  access_token : Option String
  refresh_token : Option String
deriving Repr, DecidableEq

/-- Parsed JSON of the provider's userinfo response. -/
structure GoogleUser where
  id : String
  email : String
  name : String
  picture : String
deriving Repr, DecidableEq

/-- Response of `GET /auth/google/callback`. -/
inductive GoogleCallbackResponse where
  | providerDenied (e : String)
  | missingCodeOrState
  | invalidState
  | sessionExpired
  | serverError
  | redirect (url : List Char)
deriving Repr, DecidableEq

/-- HTTP status of each `GET /auth/google/callback` outcome. -/
def GoogleCallbackResponse.status : GoogleCallbackResponse → Nat
  | .providerDenied _ => 400
  | .missingCodeOrState => 400
  | .invalidState => 400
  | .sessionExpired => 400
  | .serverError => 500
  | .redirect _ => 302

/-- Body of each `GET /auth/google/callback` error outcome. -/
def GoogleCallbackResponse.errorMessage : GoogleCallbackResponse → Option String
  | .providerDenied e => some ("Authentication failed: " ++ e)
  | .missingCodeOrState => some "Missing code or state parameter"
  | .invalidState => some "Invalid state parameter"
  | .sessionExpired => some "Authentication session expired"
  | .serverError => some "Authentication failed"
  | .redirect _ => none

/-- Response plus the `USER_SESSIONS` write the worker performs. -/
structure GoogleCallbackOutput where
  response : GoogleCallbackResponse
  sessionPut : Option (String × Payload)
deriving Repr, DecidableEq

/-- `handleGoogleCallback`.  Network results (token exchange and profile
fetch) are parameters: `none` models the fetch throwing or, for the
exchange, is distinguished from a response without `access_token`. -/
def handleGoogleCallback (C : CryptoApi) (PC : PayloadCodec) (GS : GStateCodec)
    (exchange : Option GoogleTokens) (profile : Option GoogleUser)
    (code state error : Option String) (secret : List Char) (nowMs : Nat) :
    GoogleCallbackOutput :=
  if error.getD "" ≠ "" then ⟨.providerDenied (error.getD ""), none⟩
  else if code.getD "" = "" ∨ state.getD "" = "" then ⟨.missingCodeOrState, none⟩
  else
    match GS.dec (state.getD "") with
    | none => ⟨.invalidState, none⟩
    | some stateData =>
        if nowMs - stateData.timestamp > 10 * 60 * 1000 then ⟨.sessionExpired, none⟩
        else
          match exchange with
          | none => ⟨.serverError, none⟩
          | some tokens =>
              match tokens.access_token with
              | none => ⟨.serverError, none⟩
              | some accessTok =>
                  match profile with
                  | none => ⟨.serverError, none⟩
                  | some gu =>
                      let tokenPayload : Payload :=
                        { userId := gu.id, email := gu.email, name := gu.name,
                          picture := gu.picture, domain := stateData.return_domain,
                          googleAccessToken := some accessTok,
                          googleRefreshToken := tokens.refresh_token,
                          airtableAccessToken := none, airtableRefreshToken := none,
                          iat := nowMs / 1000,
                          exp := some (nowMs / 1000 + 24 * 60 * 60) }
                      ⟨.redirect ("https://".toList ++ stateData.return_domain.toList ++
                          "/?token=".toList ++ signJWT C PC tokenPayload secret),
                        some ("session:" ++ gu.id ++ ":" ++ stateData.return_domain,
                          tokenPayload)⟩

/-! ## Secondary (Airtable) OAuth flow and its state store -/

/-- One `OAUTH_STATES` record: `{token, domain, codeVerifier, timestamp}`. -/
structure AirState where
  token : List Char
  domain : String
  codeVerifier : List Char
  timestamp : Nat
deriving Repr, DecidableEq

/-- The `OAUTH_STATES` key/value store (worker KV namespace, or the
in-memory `oauthStateStore` map of the Express backend). -/
abbrev Store := List (String × AirState)

/-- `store.get(key)`. -/
def Store.get : Store → String → Option AirState
  | [], _ => none
  | (k2, v) :: rest, k => if k2 = k then some v else Store.get rest k

/-- `store.delete(key)`. -/
def Store.delete : Store → String → Store
  | [], _ => []
  | (k2, v) :: rest, k =>
      if k2 = k then Store.delete rest k else (k2, v) :: Store.delete rest k

/-- `store.put(key, value)` (overwrite semantics). -/
def Store.put (s : Store) (k : String) (v : AirState) : Store :=
  (k, v) :: s.delete k

/-- Response of `GET /auth/airtable` (`handleAirtableAuth`). -/
inductive AirtableAuthResponse where
  | notConfigured
  | missingParams
  | invalidToken
  | domainMismatch
  | redirect (stateId : String) (challenge : List Char)
deriving Repr, DecidableEq

/-- HTTP status of each `GET /auth/airtable` outcome. -/
def AirtableAuthResponse.status : AirtableAuthResponse → Nat
  | .notConfigured => 500
  | .missingParams => 400
  | .invalidToken => 401
  | .domainMismatch => 403
  | .redirect _ _ => 302

/-- Error body of each `GET /auth/airtable` outcome. -/
def AirtableAuthResponse.errorMessage : AirtableAuthResponse → Option String
  | .notConfigured => some "Airtable OAuth integration is not configured"
  | .missingParams => some "Missing token or domain parameter"
  | .invalidToken => some "Invalid token"
  | .domainMismatch => some "Token domain mismatch"
  | .redirect _ _ => none

/-- `handleAirtableAuth`: the secondary-flow start.  Verifies the presented
session token, requires its `domain` claim to equal the `domain` query
parameter, then generates PKCE material, persists the transaction record
under `stateId` and redirects.  `stateId` and `randomBytes` stand for
`crypto.randomUUID()` / the verifier entropy. -/
def handleAirtableAuth (C : CryptoApi) (PC : PayloadCodec) (configured : Bool)
    (token : Option (List Char)) (reqDomain : Option String) (stateId : String)
    (randomBytes : List Nat) (secret : List Char) (nowMs : Nat) (store : Store) :
    AirtableAuthResponse × Store :=
  if ¬configured then (.notConfigured, store)
  else if token.getD [] = [] ∨ reqDomain.getD "" = "" then (.missingParams, store)
  else
    match verifyJWT C PC (token.getD []) secret nowMs with
    | .error _ => (.invalidToken, store)
    | .ok decoded =>
        if decoded.domain ≠ reqDomain.getD "" then (.domainMismatch, store)
        else
          let codeVerifier := generateCodeVerifier randomBytes
          (.redirect stateId (generateCodeChallenge C codeVerifier),
           store.put stateId ⟨token.getD [], reqDomain.getD "", codeVerifier, nowMs⟩)

/-- Parsed JSON of the Airtable token-endpoint response (from the Basic-auth
attempt or the body-credentials fallback; the claims treat the two uniformly). -/
structure AirTokens where
  access_token : Option String
  refresh_token : Option String
deriving Repr, DecidableEq

/-- Response of `GET /auth/airtable/callback`. -/
inductive AirtableCallbackResponse where
  | providerDenied (e : String)
  | missingParams
  | invalidSession
  | sessionExpired
  | serverError
  | redirect (url : List Char)
deriving Repr, DecidableEq

/-- HTTP status of each `GET /auth/airtable/callback` outcome. -/
def AirtableCallbackResponse.status : AirtableCallbackResponse → Nat
  | .providerDenied _ => 400
  | .missingParams => 400
  | .invalidSession => 400
  | .sessionExpired => 400
  | .serverError => 500
  | .redirect _ => 302

/-- Body of each `GET /auth/airtable/callback` error outcome. -/
def AirtableCallbackResponse.errorMessage : AirtableCallbackResponse → Option String
  | .providerDenied e => some ("Airtable authentication failed: " ++ e)
  | .missingParams => some "Missing authorization code or state"
  | .invalidSession => some "Invalid or expired authentication session"
  | .sessionExpired => some "Authentication session expired"
  | .serverError => some "Airtable authentication failed"
  | .redirect _ => none

/-- Response, resulting `OAUTH_STATES` store, and `USER_SESSIONS` write. -/
structure AirtableCallbackOutput where
  response : AirtableCallbackResponse
  store : Store
  sessionPut : Option (String × Payload)
deriving Repr, DecidableEq

/-- `updatedTokenPayload`: spread of the original verified claims with the
new Airtable credentials and a fresh `iat`; `exp` is deliberately not
touched ("Keep the same expiration time"). -/
def reissuePayload (orig : Payload) (accessToken : String)
    (refreshToken : Option String) (nowSec : Nat) : Payload :=
  { orig with
      airtableAccessToken := some accessToken,
      airtableRefreshToken := refreshToken,
      iat := nowSec }

/-- `handleAirtableCallback`: consumes (reads then deletes) the transaction
record, re-checks its age, exchanges the code (network outcome is the
`exchange` parameter), re-verifies the stored session token, re-signs the
merged claims and redirects to the bound domain. -/
def handleAirtableCallback (C : CryptoApi) (PC : PayloadCodec)
    (exchange : Option AirTokens) (code state error : Option String)
    (secret : List Char) (nowMs : Nat) (store : Store) : AirtableCallbackOutput :=
  if error.getD "" ≠ "" then ⟨.providerDenied (error.getD ""), store, none⟩
  else if code.getD "" = "" ∨ state.getD "" = "" then ⟨.missingParams, store, none⟩
  else
    match store.get (state.getD "") with
    | none => ⟨.invalidSession, store, none⟩
    | some stateData =>
        let store1 := store.delete (state.getD "")
        if nowMs - stateData.timestamp > 10 * 60 * 1000 then
          ⟨.sessionExpired, store1, none⟩
        else
          match exchange with
          | none => ⟨.serverError, store1, none⟩
          | some tokens =>
              match tokens.access_token with
              | none => ⟨.serverError, store1, none⟩
              | some accessTok =>
                  match verifyJWT C PC stateData.token secret nowMs with
                  | .error _ => ⟨.serverError, store1, none⟩
                  | .ok originalDecoded =>
                      let updatedTokenPayload :=
                        reissuePayload originalDecoded accessTok
                          tokens.refresh_token (nowMs / 1000)
                      ⟨.redirect ("https://".toList ++ stateData.domain.toList ++
                          "/?token=".toList ++ signJWT C PC updatedTokenPayload secret ++
                          "&airtable_connected=true".toList),
                        store1,
                        some ("session:" ++ originalDecoded.userId ++ ":" ++
                          stateData.domain, updatedTokenPayload)⟩

/-! ## Protected API endpoints of `backend/server.js`

These routes verify tokens with the `jsonwebtoken` library; that external
call is abstracted as `verify : List Char → Option Payload` (`none` models
`jwt.verify` throwing).  Each handler also receives `reqDomain`, the
hostname serving the request, mirroring the worker's
`handleAPIRequest(request, domain, env, ctx)` plumbing; `server.js`
likewise never reads it in the handlers that ignore it below. -/

/-- The `user` object of a successful `POST /api/verify-token` response. -/
structure UserView where
  userId : String
  email : String
  name : String
  picture : String
  domain : String
deriving Repr, DecidableEq

/-- Response of `POST /api/verify-token`. -/
inductive VerifyTokenResponse where
  | missingParams
  | invalid
  | domainMismatch
  | success (user : UserView)
deriving Repr, DecidableEq

/-- HTTP status of each `POST /api/verify-token` outcome. -/
def VerifyTokenResponse.status : VerifyTokenResponse → Nat
  | .missingParams => 400
  | .invalid => 401
  | .domainMismatch => 403
  | .success _ => 200

/-- `error` field of each `POST /api/verify-token` outcome. -/
def VerifyTokenResponse.errorMessage : VerifyTokenResponse → Option String
  | .missingParams => some "Token and domain are required"
  | .invalid => some "Invalid token"
  | .domainMismatch => some "Token domain mismatch"
  | .success _ => none

/-- `POST /api/verify-token`: verify, compare the `domain` claim with the
requesting domain from the body, and answer with the identity fields only. -/
def handleVerifyToken (verify : List Char → Option Payload)
    (token : Option (List Char)) (domain : Option String) : VerifyTokenResponse :=
  if token.getD [] = [] ∨ domain.getD "" = "" then .missingParams
  else
    match verify (token.getD []) with
    | none => .invalid
    | some decoded =>
        if decoded.domain ≠ domain.getD "" then .domainMismatch
        else .success ⟨decoded.userId, decoded.email, decoded.name,
          decoded.picture, decoded.domain⟩

/-- Response of `POST /api/sheets/create`.  `success` records which Google
credential (taken from the verified claims) was sent upstream. -/
inductive SheetsCreateResponse where
  | missingParams
  | domainMismatch
  | noGoogleToken
  | serverError
  | success (usedCredential : String)
deriving Repr, DecidableEq

/-- HTTP status of each `POST /api/sheets/create` outcome (`jwt.verify`
throwing lands in the catch-all 500). -/
def SheetsCreateResponse.status : SheetsCreateResponse → Nat
  | .missingParams => 400
  | .domainMismatch => 403
  | .noGoogleToken => 400
  | .serverError => 500
  | .success _ => 200

/-- `POST /api/sheets/create`: a representative domain-guarded protected
operation.  `upstreamOk` is the outcome of the Google Sheets calls. -/
def handleSheetsCreate (verify : List Char → Option Payload)
    (token : Option (List Char)) (domain : Option String) (reqDomain : String)
    (upstreamOk : Bool) : SheetsCreateResponse :=
  if token.getD [] = [] ∨ domain.getD "" = "" then .missingParams
  else
    match verify (token.getD []) with
    | none => .serverError
    | some decoded =>
        if decoded.domain ≠ domain.getD "" then .domainMismatch
        else
          match decoded.googleAccessToken with
          | none => .noGoogleToken
          | some g =>
              if g = "" then .noGoogleToken
              else if upstreamOk then .success g else .serverError

/-- Response of `POST /api/stripe/global-analytics`.  `success` carries the
Stripe-wide dataset (products and payments of every domain) that the route
aggregates and returns. -/
inductive GlobalAnalyticsResponse (α : Type) where
  | missingToken
  | notConfigured
  | serverError
  | success (data : α)
deriving Repr, DecidableEq

/-- HTTP status of each `POST /api/stripe/global-analytics` outcome. -/
def GlobalAnalyticsResponse.status {α : Type} : GlobalAnalyticsResponse α → Nat
  | .missingToken => 400
  | .notConfigured => 500
  | .serverError => 500
  | .success _ => 200

/-- `POST /api/stripe/global-analytics`: requires only a token in the body;
after `jwt.verify` succeeds it returns analytics across all domains.  It
never reads `reqDomain` and never compares it with `decoded.domain`. -/
def handleStripeGlobalAnalytics {α : Type} (verify : List Char → Option Payload)
    (token : Option (List Char)) (reqDomain : String) (stripeConfigured : Bool)
    (data : α) : GlobalAnalyticsResponse α :=
  if token.getD [] = [] then .missingToken
  else if ¬stripeConfigured then .notConfigured
  else
    match verify (token.getD []) with
    | none => .serverError
    | some _ => .success data

/-- Response of `POST /api/airtable/bases`.  `success` records the Airtable
credential taken from the claims and the bases fetched with it. -/
inductive AirtableBasesResponse where
  | missingAuth
  | noConnection
  | serverError
  | success (usedCredential : String) (bases : List String)
deriving Repr, DecidableEq

/-- HTTP status of each `POST /api/airtable/bases` outcome (`jwt.verify`
throwing lands in the catch-all 500). -/
def AirtableBasesResponse.status : AirtableBasesResponse → Nat
  | .missingAuth => 401
  | .noConnection => 400
  | .serverError => 500
  | .success _ _ => 200

/-- `POST /api/airtable/bases`: reads a Bearer token from the
`Authorization` header (`bearer` is the extracted token, `none` when the
header is absent or lacks the `Bearer ` prefix), verifies it, and uses the
`airtableAccessToken` bound in the claims — with no domain comparison.
`fetchBases` is the Airtable meta-API call. -/
def handleAirtableBases (verify : List Char → Option Payload)
    (bearer : Option (List Char)) (reqDomain : String)
    (fetchBases : String → Option (List String)) : AirtableBasesResponse :=
  match bearer with
  | none => .missingAuth
  | some tok =>
      match verify tok with
      | none => .serverError
      | some decoded =>
          match decoded.airtableAccessToken with
          | none => .noConnection
          | some a =>
              if a = "" then .noConnection
              else
                match fetchBases a with
                | none => .serverError
                | some bs => .success a bs

/-- Response of `POST /api/airtable/create-record`.  `success` records the
Airtable credential actually sent upstream and the created record. -/
inductive AirtableCreateRecordResponse (α : Type) where
  | missingParams
  | missingBaseId
  | domainMismatch
  | noAuth
  | serverError
  | success (usedCredential : String) (record : α)
deriving Repr, DecidableEq

/-- HTTP status of each `POST /api/airtable/create-record` outcome
(`jwt.verify` throwing produces an error without `statusCode`, landing in
the catch-all 500; upstream Airtable failures map to 401/404/422/500 and
are collapsed into `serverError` here). -/
def AirtableCreateRecordResponse.status {α : Type} :
    AirtableCreateRecordResponse α → Nat
  | .missingParams => 400
  | .missingBaseId => 400
  | .domainMismatch => 403
  | .noAuth => 400
  | .serverError => 500
  | .success _ _ => 200

/-- `POST /api/airtable/create-record`: domain-guarded, then the explicit
credential fallback — the OAuth credential bound in the claims when truthy,
else the client-supplied `airtableApiKey`, else 400.  `upstream` is the
Airtable record creation performed with the chosen credential. -/
def handleAirtableCreateRecord {α : Type} (verify : List Char → Option Payload)
    (token : Option (List Char)) (domain : Option String) (reqDomain : String)
    (airtableApiKey baseId : Option String)
    (upstream : String → Option α) : AirtableCreateRecordResponse α :=
  if token.getD [] = [] ∨ domain.getD "" = "" then .missingParams
  else if baseId.getD "" = "" then .missingBaseId
  else
    match verify (token.getD []) with
    | none => .serverError
    | some decoded =>
        if decoded.domain ≠ domain.getD "" then .domainMismatch
        else if decoded.airtableAccessToken.getD "" ≠ "" then
          match upstream (decoded.airtableAccessToken.getD "") with
          | none => .serverError
          | some r => .success (decoded.airtableAccessToken.getD "") r
        else if airtableApiKey.getD "" ≠ "" then
          match upstream (airtableApiKey.getD "") with
          | none => .serverError
          | some r => .success (airtableApiKey.getD "") r
        else .noAuth

/-- Response of `POST /api/airtable/setup-info`. -/
inductive SetupInfoResponse where
  | missingParams
  | invalid
  | domainMismatch
  | success (domain : String) (user : String)
deriving Repr, DecidableEq

/-- HTTP status of each `POST /api/airtable/setup-info` outcome (this route
answers 401 on a `jwt.verify` throw). -/
def SetupInfoResponse.status : SetupInfoResponse → Nat
  | .missingParams => 400
  | .invalid => 401
  | .domainMismatch => 403
  | .success _ _ => 200

/-- `POST /api/airtable/setup-info`: domain-guarded; the success body is
built from the requesting domain and the verified claims' email. -/
def handleAirtableSetupInfo (verify : List Char → Option Payload)
    (token : Option (List Char)) (domain : Option String) (reqDomain : String) :
    SetupInfoResponse :=
  if token.getD [] = [] ∨ domain.getD "" = "" then .missingParams
  else
    match verify (token.getD []) with
    | none => .invalid
    | some decoded =>
        if decoded.domain ≠ domain.getD "" then .domainMismatch
        else .success (domain.getD "") decoded.email

/-- Response of `POST /api/airtable/tables`. -/
inductive AirtableTablesResponse where
  | missingAuth
  | noConnection
  | missingBaseId
  | serverError
  | success (usedCredential : String) (tables : List String)
deriving Repr, DecidableEq

/-- HTTP status of each `POST /api/airtable/tables` outcome (`jwt.verify`
throwing lands in the catch-all 500). -/
def AirtableTablesResponse.status : AirtableTablesResponse → Nat
  | .missingAuth => 401
  | .noConnection => 400
  | .missingBaseId => 400
  | .serverError => 500
  | .success _ _ => 200

/-- `POST /api/airtable/tables`: like `/api/airtable/bases` — Bearer token
verified, then the bound `airtableAccessToken` is used with no domain
comparison.  `fetchTables` is the Airtable meta-API call, taking the
credential and the base id. -/
def handleAirtableTables (verify : List Char → Option Payload)
    (bearer : Option (List Char)) (reqDomain : String) (baseId : Option String)
    (fetchTables : String → String → Option (List String)) :
    AirtableTablesResponse :=
  match bearer with
  | none => .missingAuth
  | some tok =>
      match verify tok with
      | none => .serverError
      | some decoded =>
          if decoded.airtableAccessToken.getD "" = "" then .noConnection
          else if baseId.getD "" = "" then .missingBaseId
          else
            match fetchTables (decoded.airtableAccessToken.getD "")
                (baseId.getD "") with
            | none => .serverError
            | some ts => .success (decoded.airtableAccessToken.getD "") ts

/-- Response shared by the six per-domain Stripe routes whose outcomes are
400 missing params / 500 not configured / 500 catch-all (including a
`jwt.verify` throw) / 403 domain mismatch / 200. -/
inductive StripeRouteResponse (α : Type) where
  | missingParams
  | notConfigured
  | serverError
  | domainMismatch
  | success (r : α)
deriving Repr, DecidableEq

/-- HTTP status of each per-domain Stripe route outcome. -/
def StripeRouteResponse.status {α : Type} : StripeRouteResponse α → Nat
  | .missingParams => 400
  | .notConfigured => 500
  | .serverError => 500
  | .domainMismatch => 403
  | .success _ => 200

/-- `POST /api/stripe/create-product`: domain-guarded; `upstream` is the
product/price creation chain run after the check. -/
def handleStripeCreateProduct {α : Type} (verify : List Char → Option Payload)
    (token : Option (List Char)) (domain : Option String) (reqDomain : String)
    (stripeConfigured : Bool) (upstream : Option α) : StripeRouteResponse α :=
  if token.getD [] = [] ∨ domain.getD "" = "" then .missingParams
  else if ¬stripeConfigured then .notConfigured
  else
    match verify (token.getD []) with
    | none => .serverError
    | some decoded =>
        if decoded.domain ≠ domain.getD "" then .domainMismatch
        else
          match upstream with
          | none => .serverError
          | some r => .success r

/-- `POST /api/stripe/create-payment-intent`: domain-guarded; a missing
`priceId` throws (500); `upstream` is the price retrieval plus intent
creation run after the check. -/
def handleStripeCreatePaymentIntent {α : Type}
    (verify : List Char → Option Payload) (token : Option (List Char))
    (domain : Option String) (reqDomain : String) (stripeConfigured : Bool)
    (priceId : Option String) (upstream : Option α) : StripeRouteResponse α :=
  if token.getD [] = [] ∨ domain.getD "" = "" then .missingParams
  else if ¬stripeConfigured then .notConfigured
  else
    match verify (token.getD []) with
    | none => .serverError
    | some decoded =>
        if decoded.domain ≠ domain.getD "" then .domainMismatch
        else if priceId.getD "" = "" then .serverError
        else
          match upstream with
          | none => .serverError
          | some r => .success r

/-- `POST /api/stripe/products`: domain-guarded; `upstream` is the Stripe
product listing as pairs of `metadata.domain` and product data, which the
route filters down to the requesting domain. -/
def handleStripeGetProducts {α : Type} (verify : List Char → Option Payload)
    (token : Option (List Char)) (domain : Option String) (reqDomain : String)
    (stripeConfigured : Bool) (upstream : Option (List (String × α))) :
    StripeRouteResponse (List (String × α)) :=
  if token.getD [] = [] ∨ domain.getD "" = "" then .missingParams
  else if ¬stripeConfigured then .notConfigured
  else
    match verify (token.getD []) with
    | none => .serverError
    | some decoded =>
        if decoded.domain ≠ domain.getD "" then .domainMismatch
        else
          match upstream with
          | none => .serverError
          | some ps => .success (ps.filter (fun q => q.1 = domain.getD ""))

/-- `POST /api/stripe/create-subscription`: domain-guarded; `upstream` is
the product and recurring-price creation chain run after the check. -/
def handleStripeCreateSubscription {α : Type}
    (verify : List Char → Option Payload) (token : Option (List Char))
    (domain : Option String) (reqDomain : String) (stripeConfigured : Bool)
    (upstream : Option α) : StripeRouteResponse α :=
  if token.getD [] = [] ∨ domain.getD "" = "" then .missingParams
  else if ¬stripeConfigured then .notConfigured
  else
    match verify (token.getD []) with
    | none => .serverError
    | some decoded =>
        if decoded.domain ≠ domain.getD "" then .domainMismatch
        else
          match upstream with
          | none => .serverError
          | some r => .success r

/-- `POST /api/stripe/create-subscription-intent`: domain-guarded; a
missing `priceId` throws (500); `customer` is the find-or-create customer
step (`none` = it threw), `create` the subscription creation. -/
def handleStripeCreateSubscriptionIntent {α : Type}
    (verify : List Char → Option Payload) (token : Option (List Char))
    (domain : Option String) (reqDomain : String) (stripeConfigured : Bool)
    (priceId customer : Option String) (create : Option α) :
    StripeRouteResponse α :=
  if token.getD [] = [] ∨ domain.getD "" = "" then .missingParams
  else if ¬stripeConfigured then .notConfigured
  else
    match verify (token.getD []) with
    | none => .serverError
    | some decoded =>
        if decoded.domain ≠ domain.getD "" then .domainMismatch
        else if priceId.getD "" = "" then .serverError
        else
          match customer with
          | none => .serverError
          | some _ =>
              match create with
              | none => .serverError
              | some r => .success r

/-- `POST /api/stripe/subscriptions`: domain-guarded; `customer` is the
customer lookup by email (`none` = the call threw, `some none` = no
customer, then the route answers an empty list), `subs` lists the
customer's subscriptions as pairs of `metadata.domain` and subscription
data, which the route filters down to the requesting domain. -/
def handleStripeGetSubscriptions {α : Type}
    (verify : List Char → Option Payload) (token : Option (List Char))
    (domain : Option String) (reqDomain : String) (stripeConfigured : Bool)
    (customer : Option (Option String))
    (subs : String → Option (List (String × α))) :
    StripeRouteResponse (List (String × α)) :=
  if token.getD [] = [] ∨ domain.getD "" = "" then .missingParams
  else if ¬stripeConfigured then .notConfigured
  else
    match verify (token.getD []) with
    | none => .serverError
    | some decoded =>
        if decoded.domain ≠ domain.getD "" then .domainMismatch
        else
          match customer with
          | none => .serverError
          | some none => .success []
          | some (some cid) =>
              match subs cid with
              | none => .serverError
              | some l => .success (l.filter (fun q => q.1 = domain.getD ""))

/-- Response of `POST /api/stripe/cancel-subscription`: as the other Stripe
routes, plus the second 403 (`Subscription does not belong to this
domain`) checked against the retrieved subscription's metadata. -/
inductive CancelSubscriptionResponse (α : Type) where
  | missingParams
  | notConfigured
  | serverError
  | domainMismatch
  | subscriptionMismatch
  | success (r : α)
deriving Repr, DecidableEq

/-- HTTP status of each `POST /api/stripe/cancel-subscription` outcome. -/
def CancelSubscriptionResponse.status {α : Type} :
    CancelSubscriptionResponse α → Nat
  | .missingParams => 400
  | .notConfigured => 500
  | .serverError => 500
  | .domainMismatch => 403
  | .subscriptionMismatch => 403
  | .success _ => 200

/-- `POST /api/stripe/cancel-subscription`: domain-guarded (the 400 check
also requires `subscriptionId`); `retrieve` is the retrieved
subscription's `metadata.domain`, `update` the cancel-at-period-end
update. -/
def handleStripeCancelSubscription {α : Type}
    (verify : List Char → Option Payload) (token : Option (List Char))
    (domain subscriptionId : Option String) (reqDomain : String)
    (stripeConfigured : Bool) (retrieve : Option String) (update : Option α) :
    CancelSubscriptionResponse α :=
  if token.getD [] = [] ∨ domain.getD "" = "" ∨ subscriptionId.getD "" = ""
  then .missingParams
  else if ¬stripeConfigured then .notConfigured
  else
    match verify (token.getD []) with
    | none => .serverError
    | some decoded =>
        if decoded.domain ≠ domain.getD "" then .domainMismatch
        else
          match retrieve with
          | none => .serverError
          | some subDomain =>
              if subDomain ≠ domain.getD "" then .subscriptionMismatch
              else
                match update with
                | none => .serverError
                | some r => .success r

/-- `POST /api/stripe/global-products`: requires only a token in the body;
after `jwt.verify` succeeds it returns every product of every domain
(pairs of `metadata.domain` and product data), with no domain filter and
no comparison against `reqDomain`. -/
def handleStripeGlobalProducts {α : Type} (verify : List Char → Option Payload)
    (token : Option (List Char)) (reqDomain : String) (stripeConfigured : Bool)
    (products : List (String × α)) :
    GlobalAnalyticsResponse (List (String × α)) :=
  if token.getD [] = [] then .missingToken
  else if ¬stripeConfigured then .notConfigured
  else
    match verify (token.getD []) with
    | none => .serverError
    | some _ => .success products

/-! ## Concrete instances of the platform codecs

Used to evaluate the handlers on closed inputs.  The payload serialisation
is a simple self-delimiting byte encoding (bytes `0`/`1` only), standing in
for UTF-8 JSON; the laws proved below are exactly the interface laws. -/

/-- Self-delimiting encoding of a natural number over bytes `0`/`1`. -/
def unaryEnc (n : Nat) : List Nat := List.replicate n 1 ++ [0]

/-- Reader for `unaryEnc`. -/
def readUnary : List Nat → Option (Nat × List Nat)
  | 0 :: rest => some (0, rest)
  | 1 :: rest =>
      match readUnary rest with
      | some (n, r) => some (n + 1, r)
      | none => none
  | _ => none

lemma readUnary_unaryEnc (n : Nat) (rest : List Nat) :
    readUnary (unaryEnc n ++ rest) = some (n, rest) := by
  induction n with
  | zero => rfl
  | succ k ih =>
      have h : unaryEnc (k + 1) ++ rest = 1 :: (unaryEnc k ++ rest) := by
        simp [unaryEnc, List.replicate_succ]
      rw [h, readUnary, ih]

/-- Encoding of a string: length, then each character's code point. -/
def strEnc (s : String) : List Nat :=
  unaryEnc s.toList.length ++ (s.toList.map (fun c => unaryEnc c.toNat)).flatten

/-- Reader for a counted sequence of code points. -/
def readChars : Nat → List Nat → Option (List Char × List Nat)
  | 0, bs => some ([], bs)
  | n + 1, bs =>
      match readUnary bs with
      | some (k, r) =>
          match readChars n r with
          | some (cs, r2) => some (Char.ofNat k :: cs, r2)
          | none => none
      | none => none

/-- Reader for `strEnc`. -/
def readStr (bs : List Nat) : Option (String × List Nat) :=
  match readUnary bs with
  | some (n, r) =>
      match readChars n r with
      | some (cs, r2) => some (String.mk cs, r2)
      | none => none
  | none => none

lemma readChars_flatten (cs : List Char) (rest : List Nat) :
    readChars cs.length ((cs.map (fun c => unaryEnc c.toNat)).flatten ++ rest) =
      some (cs, rest) := by
  induction cs with
  | nil => rfl
  | cons c tail ih =>
      simp only [List.map_cons, List.flatten_cons, List.length_cons, List.append_assoc]
      rw [readChars, readUnary_unaryEnc]
      simp [ih, Char.ofNat_toNat]

lemma readStr_strEnc (s : String) (rest : List Nat) :
    readStr (strEnc s ++ rest) = some (s, rest) := by
  have h1 : strEnc s ++ rest = unaryEnc s.toList.length ++
      ((s.toList.map (fun c => unaryEnc c.toNat)).flatten ++ rest) := by
    rw [strEnc, List.append_assoc]
  rw [h1, readStr]
  simp only [readUnary_unaryEnc]
  rw [readChars_flatten]
  rfl

/-- Encoding of an optional string (tag byte, then the string). -/
def optStrEnc : Option String → List Nat
  | none => [0]
  | some s => 1 :: strEnc s

/-- Reader for `optStrEnc`. -/
def readOptStr : List Nat → Option (Option String × List Nat)
  | 0 :: r => some (none, r)
  | 1 :: r =>
      match readStr r with
      | some (s, r2) => some (some s, r2)
      | none => none
  | _ => none

lemma readOptStr_optStrEnc (o : Option String) (rest : List Nat) :
    readOptStr (optStrEnc o ++ rest) = some (o, rest) := by
  cases o with
  | none => rfl
  | some s => simp [optStrEnc, readOptStr, readStr_strEnc]

/-- Encoding of an optional natural (tag byte, then the number). -/
def optNatEnc : Option Nat → List Nat
  | none => [0]
  | some n => 1 :: unaryEnc n

/-- Reader for `optNatEnc`. -/
def readOptNat : List Nat → Option (Option Nat × List Nat)
  | 0 :: r => some (none, r)
  | 1 :: r =>
      match readUnary r with
      | some (n, r2) => some (some n, r2)
      | none => none
  | _ => none

lemma readOptNat_optNatEnc (o : Option Nat) (rest : List Nat) :
    readOptNat (optNatEnc o ++ rest) = some (o, rest) := by
  cases o with
  | none => rfl
  | some n => simp [optNatEnc, readOptNat, readUnary_unaryEnc]

/-- Concrete payload serialisation. -/
def cStringify (p : Payload) : List Nat :=
  strEnc p.userId ++ strEnc p.email ++ strEnc p.name ++ strEnc p.picture ++
  strEnc p.domain ++ optStrEnc p.googleAccessToken ++
  optStrEnc p.googleRefreshToken ++ optStrEnc p.airtableAccessToken ++
  optStrEnc p.airtableRefreshToken ++ unaryEnc p.iat ++ optNatEnc p.exp

/-- Concrete payload parser. -/
def cParse (bs : List Nat) : Option Payload := do
  let (userId, r) ← readStr bs
  let (email, r) ← readStr r
  let (name, r) ← readStr r
  let (picture, r) ← readStr r
  let (domain, r) ← readStr r
  let (gat, r) ← readOptStr r
  let (grt, r) ← readOptStr r
  let (aat, r) ← readOptStr r
  let (art, r) ← readOptStr r
  let (iat, r) ← readUnary r
  let (e, r) ← readOptNat r
  if r = [] then
    some ⟨userId, email, name, picture, domain, gat, grt, aat, art, iat, e⟩
  else none

lemma mem_unaryEnc {b n : Nat} (h : b ∈ unaryEnc n) : b < 256 := by
  rw [unaryEnc] at h
  rcases List.mem_append.1 h with h | h
  · have := List.eq_of_mem_replicate h
    omega
  · simp at h
    omega

lemma mem_strEnc {b : Nat} {s : String} (h : b ∈ strEnc s) : b < 256 := by
  rw [strEnc] at h
  rcases List.mem_append.1 h with h | h
  · exact mem_unaryEnc h
  · rcases List.mem_flatten.1 h with ⟨l, hl, hb⟩
    rcases List.mem_map.1 hl with ⟨c, _, rfl⟩
    exact mem_unaryEnc hb

lemma mem_optStrEnc {b : Nat} {o : Option String} (h : b ∈ optStrEnc o) : b < 256 := by
  cases o with
  | none => simp [optStrEnc] at h; omega
  | some s =>
      simp only [optStrEnc, List.mem_cons] at h
      rcases h with h | h
      · omega
      · exact mem_strEnc h

lemma mem_optNatEnc {b : Nat} {o : Option Nat} (h : b ∈ optNatEnc o) : b < 256 := by
  cases o with
  | none => simp [optNatEnc] at h; omega
  | some n =>
      simp only [optNatEnc, List.mem_cons] at h
      rcases h with h | h
      · omega
      · exact mem_unaryEnc h

lemma cParse_cStringify (p : Payload) : cParse (cStringify p) = some p := by
  rw [cStringify]
  simp only [List.append_assoc]
  rw [cParse]
  simp only [readStr_strEnc, readOptStr_optStrEnc, readOptNat_optNatEnc,
    readUnary_unaryEnc, Option.bind_eq_bind, Option.some_bind]
  have h : optNatEnc p.exp = optNatEnc p.exp ++ [] := by simp
  rw [h, readOptNat_optNatEnc]
  simp

/-- Concrete payload codec. -/
def cCodec : PayloadCodec where
  stringify := cStringify
  parse := cParse
  parse_stringify := cParse_cStringify
  stringify_lt := by
    intro p b hb
    rw [cStringify] at hb
    simp only [List.mem_append] at hb
    rcases hb with ((((((((((h | h) | h) | h) | h) | h) | h) | h) | h) | h) | h)
    · exact mem_strEnc h
    · exact mem_strEnc h
    · exact mem_strEnc h
    · exact mem_strEnc h
    · exact mem_strEnc h
    · exact mem_optStrEnc h
    · exact mem_optStrEnc h
    · exact mem_optStrEnc h
    · exact mem_optStrEnc h
    · exact mem_unaryEnc h
    · exact mem_optNatEnc h

/-- Concrete crypto instance: a constant MAC and digest (sufficient for
evaluating the handlers on closed inputs; the theorems quantify over
every `CryptoApi`). -/
def cCrypto : CryptoApi where
  hmacSHA256 := fun _ _ => [7]
  sha256 := fun _ => [3]
  hmac_lt := by intro s d b hb; simp at hb; omega

/-- Concrete state codec for the primary flow: unary timestamp, a `|`
separator, then the domain. -/
def cGEnc (s : GoogleState) : String :=
  String.mk (List.replicate s.timestamp 'a' ++ '|' :: s.return_domain.toList)

/-- Parser for `cGEnc`. -/
def cGDecAux : List Char → Nat → Option GoogleState
  | [], _ => none
  | c :: rest, n =>
      if c = '|' then some ⟨String.mk rest, n⟩
      else if c = 'a' then cGDecAux rest (n + 1) else none

/-- Decoder for `cGEnc`. -/
def cGDec (s : String) : Option GoogleState := cGDecAux s.toList 0

lemma cGDecAux_spec (t : Nat) (d : List Char) :
    ∀ n, cGDecAux (List.replicate t 'a' ++ '|' :: d) n = some ⟨String.mk d, n + t⟩ := by
  induction t with
  | zero => intro n; simp [cGDecAux]
  | succ k ih =>
      intro n
      rw [List.replicate_succ, List.cons_append, cGDecAux]
      have h1 : ('a' : Char) ≠ '|' := by decide
      rw [if_neg h1, if_pos rfl, ih]
      have h2 : n + 1 + k = n + (k + 1) := by omega
      rw [h2]

lemma cGDec_cGEnc (s : GoogleState) : cGDec (cGEnc s) = some s := by
  rw [cGEnc, cGDec]
  have h : (String.mk (List.replicate s.timestamp 'a' ++ '|' :: s.return_domain.toList)).toList
      = List.replicate s.timestamp 'a' ++ '|' :: s.return_domain.toList := rfl
  rw [h, cGDecAux_spec]
  simp

/-- Concrete Google-state codec. -/
def cGCodec : GStateCodec where
  enc := cGEnc
  dec := cGDec
  dec_enc := cGDec_cGEnc
  enc_ne := by
    intro s h
    have := congrArg String.toList h
    rw [cGEnc] at this
    simp at this

/-! ## Store lemmas and concrete fixtures -/

lemma Store.get_delete (s : Store) (k : String) : (s.delete k).get k = none := by
  induction s with
  | nil => rfl
  | cons kv rest ih =>
      rcases kv with ⟨k2, v⟩
      rw [Store.delete]
      by_cases h : k2 = k
      · rw [if_pos h, ih]
      · rw [if_neg h, Store.get, if_neg h, ih]

/-- Resulting `OAUTH_STATES` store of an Airtable callback that got past the
state lookup: the record is always deleted, on every later branch. -/
lemma airtableCallback_store_consumed (C : CryptoApi) (PC : PayloadCodec)
    (exchange : Option AirTokens) (code : Option String) (sid : String)
    (secret : List Char) (nowMs : Nat) (store : Store) (sd : AirState)
    (hc : code.getD "" ≠ "") (hs : sid ≠ "") (hget : store.get sid = some sd) :
    (handleAirtableCallback C PC exchange code (some sid) none secret nowMs
        store).store = store.delete sid := by
  by_cases hage : nowMs - sd.timestamp > 10 * 60 * 1000
  · simp [handleAirtableCallback, hc, hs, hget, hage]
  · cases exchange with
    | none => simp [handleAirtableCallback, hc, hs, hget, hage]
    | some tokens =>
        cases hat : tokens.access_token with
        | none => simp [handleAirtableCallback, hc, hs, hget, hage, hat]
        | some a =>
            cases hv : verifyJWT C PC sd.token secret nowMs with
            | error e => simp [handleAirtableCallback, hc, hs, hget, hage, hat, hv]
            | ok p => simp [handleAirtableCallback, hc, hs, hget, hage, hat, hv]

/-- A fixture payload bound to `shop-a.com`. -/
def payloadA : Payload :=
  ⟨"u1", "u@a.com", "U", "pic", "shop-a.com", some "g", some "gr", none, none, 5, some 9⟩

/-- `payloadA` with an Airtable credential bound. -/
def payloadB : Payload := { payloadA with airtableAccessToken := some "air" }

/-- `payloadA` with no expiry claim at all. -/
def payloadNoExp : Payload := { payloadA with exp := none }

/-! ## Claims -/

/-- C1: for every session token and requesting domain, the
domain-authorization check (`POST /api/verify-token` and the
secondary-flow start) verifies the token and then requires the token's
`domain` claim to equal the requesting domain by exact string comparison:
200 with the user object (resp. proceeding to the provider redirect) when
equal, 401 when the token is invalid or expired, 403 with
`Token domain mismatch` when the verified domain differs. -/
theorem C1_domain_authorization :
    (∀ (verify : List Char → Option Payload) (t : List Char) (d : String),
        t ≠ [] → d ≠ "" →
        (verify t = none →
          handleVerifyToken verify (some t) (some d) = .invalid ∧
          VerifyTokenResponse.invalid.status = 401) ∧
        (∀ p, verify t = some p → p.domain ≠ d →
          handleVerifyToken verify (some t) (some d) = .domainMismatch ∧
          VerifyTokenResponse.domainMismatch.status = 403 ∧
          VerifyTokenResponse.domainMismatch.errorMessage =
            some "Token domain mismatch") ∧
        (∀ p, verify t = some p → p.domain = d →
          handleVerifyToken verify (some t) (some d) =
            .success ⟨p.userId, p.email, p.name, p.picture, p.domain⟩ ∧
          (VerifyTokenResponse.success
            ⟨p.userId, p.email, p.name, p.picture, p.domain⟩).status = 200)) ∧
    (∀ (C : CryptoApi) (PC : PayloadCodec) (t : List Char) (d sid : String)
        (rb : List Nat) (secret : List Char) (nowMs : Nat) (store : Store),
        t ≠ [] → d ≠ "" →
        (∀ e, verifyJWT C PC t secret nowMs = .error e →
          (handleAirtableAuth C PC true (some t) (some d) sid rb secret nowMs
            store).1 = .invalidToken ∧
          AirtableAuthResponse.invalidToken.status = 401) ∧
        (∀ p, verifyJWT C PC t secret nowMs = .ok p → p.domain ≠ d →
          (handleAirtableAuth C PC true (some t) (some d) sid rb secret nowMs
            store).1 = .domainMismatch ∧
          AirtableAuthResponse.domainMismatch.status = 403 ∧
          AirtableAuthResponse.domainMismatch.errorMessage =
            some "Token domain mismatch") ∧
        (∀ p, verifyJWT C PC t secret nowMs = .ok p → p.domain = d →
          handleAirtableAuth C PC true (some t) (some d) sid rb secret nowMs
              store =
            (.redirect sid (generateCodeChallenge C (generateCodeVerifier rb)),
             store.put sid ⟨t, d, generateCodeVerifier rb, nowMs⟩))) := by
  constructor
  · intro verify t d ht hd
    refine ⟨fun hv => ⟨by simp [handleVerifyToken, ht, hd, hv], rfl⟩, ?_, ?_⟩
    · intro p hv hdom
      exact ⟨by simp [handleVerifyToken, ht, hd, hv, hdom], rfl, rfl⟩
    · intro p hv hdom
      exact ⟨by simp [handleVerifyToken, ht, hd, hv, hdom], rfl⟩
  · intro C PC t d sid rb secret nowMs store ht hd
    refine ⟨fun e hv => ⟨by simp [handleAirtableAuth, ht, hd, hv], rfl⟩, ?_, ?_⟩
    · intro p hv hdom
      exact ⟨by simp [handleAirtableAuth, ht, hd, hv, hdom], rfl, rfl⟩
    · intro p hv hdom
      simp [handleAirtableAuth, ht, hd, hv, hdom]

/-- Witness for C1 at concrete inputs: a token whose claims are bound to
`shop-a.com` presented with requesting domain `shop-b.com` is answered with
403 `Token domain mismatch`. -/
theorem C1_domain_authorization_witness :
    handleVerifyToken (fun _ => some payloadA) (some ['t']) (some "shop-b.com") =
      .domainMismatch ∧
    VerifyTokenResponse.domainMismatch.status = 403 ∧
    VerifyTokenResponse.domainMismatch.errorMessage = some "Token domain mismatch" :=
  (C1_domain_authorization.1 (fun _ => some payloadA) ['t'] "shop-b.com"
      (by decide) (by decide)).2.1 payloadA rfl (by decide)

/-- C4: re-issuing the session token with secondary-provider credentials
(`updatedTokenPayload` in the Airtable callback) preserves `exp` exactly
and leaves `domain`, `userId`, `email` and every other original field
except the Airtable credentials unchanged, altering only `iat`, which is
set to the current time. -/
theorem C4_reissue_preserves_claims (orig : Payload) (a : String)
    (r : Option String) (nowSec : Nat) :
    (reissuePayload orig a r nowSec).exp = orig.exp ∧
    (reissuePayload orig a r nowSec).domain = orig.domain ∧
    (reissuePayload orig a r nowSec).userId = orig.userId ∧
    (reissuePayload orig a r nowSec).email = orig.email ∧
    (reissuePayload orig a r nowSec).name = orig.name ∧
    (reissuePayload orig a r nowSec).picture = orig.picture ∧
    (reissuePayload orig a r nowSec).googleAccessToken = orig.googleAccessToken ∧
    (reissuePayload orig a r nowSec).googleRefreshToken = orig.googleRefreshToken ∧
    (reissuePayload orig a r nowSec).iat = nowSec ∧
    (reissuePayload orig a r nowSec).airtableAccessToken = some a ∧
    (reissuePayload orig a r nowSec).airtableRefreshToken = r :=
  ⟨rfl, rfl, rfl, rfl, rfl, rfl, rfl, rfl, rfl, rfl, rfl⟩

/-- C3: a primary flow started with `return_domain = d` whose callback
succeeds (valid code and state, provider returns an access token and a
profile) produces a signed session token whose `domain` claim equals `d`,
and the callback's result is a 302 redirect to `https://{d}/?token=<tok>`. -/
theorem C3_primary_flow_domain_binding
    (C : CryptoApi) (PC : PayloadCodec) (GS : GStateCodec)
    (d code : String) (t0 nowMs : Nat)
    (tokens : GoogleTokens) (a : String) (gu : GoogleUser) (secret : List Char)
    (hd : d ≠ "") (hcode : code ≠ "")
    (hage : nowMs - t0 ≤ 10 * 60 * 1000)
    (ha : tokens.access_token = some a) :
    handleGoogleAuth GS (some d) t0 = .redirect (GS.enc ⟨d, t0⟩) ∧
    ∃ tok : List Char,
      handleGoogleCallback C PC GS (some tokens) (some gu) (some code)
          (some (GS.enc ⟨d, t0⟩)) none secret nowMs =
        ⟨.redirect ("https://".toList ++ d.toList ++ "/?token=".toList ++ tok),
         some ("session:" ++ gu.id ++ ":" ++ d,
           { userId := gu.id, email := gu.email, name := gu.name,
             picture := gu.picture, domain := d, googleAccessToken := some a,
             googleRefreshToken := tokens.refresh_token,
             airtableAccessToken := none, airtableRefreshToken := none,
             iat := nowMs / 1000, exp := some (nowMs / 1000 + 24 * 60 * 60) })⟩ ∧
      (GoogleCallbackResponse.redirect
        ("https://".toList ++ d.toList ++ "/?token=".toList ++ tok)).status = 302 ∧
      ∃ p : Payload, verifyJWT C PC tok secret nowMs = .ok p ∧ p.domain = d := by
  refine ⟨by simp [handleGoogleAuth, hd], ?_⟩
  set pl : Payload :=
    { userId := gu.id, email := gu.email, name := gu.name,
      picture := gu.picture, domain := d, googleAccessToken := some a,
      googleRefreshToken := tokens.refresh_token,
      airtableAccessToken := none, airtableRefreshToken := none,
      iat := nowMs / 1000, exp := some (nowMs / 1000 + 24 * 60 * 60) } with hpl
  refine ⟨signJWT C PC pl secret, ?_, rfl, pl, ?_, rfl⟩
  · have hnotold : ¬(nowMs - t0 > 10 * 60 * 1000) := by omega
    simp [handleGoogleCallback, hcode, GS.enc_ne ⟨d, t0⟩, GS.dec_enc ⟨d, t0⟩,
      hnotold, ha, hpl]
  · apply verify_signJWT
    intro e he
    rw [hpl] at he
    simp only [Option.some.injEq] at he
    right
    omega

/-- Witness for C3 at concrete inputs: starting the flow for
`shop-a.com` and completing its callback issues a token bound to
`shop-a.com` and redirects there. -/
theorem C3_primary_flow_domain_binding_witness :
    handleGoogleAuth cGCodec (some "shop-a.com") 100 =
      .redirect (cGCodec.enc ⟨"shop-a.com", 100⟩) ∧
    ∃ tok : List Char,
      handleGoogleCallback cCrypto cCodec cGCodec
          (some ⟨some "at", some "rt"⟩) (some ⟨"u1", "u@a.com", "U", "pic"⟩)
          (some "code") (some (cGCodec.enc ⟨"shop-a.com", 100⟩)) none
          "s".toList 5000 =
        ⟨.redirect ("https://".toList ++ "shop-a.com".toList ++ "/?token=".toList ++ tok),
         some ("session:" ++ "u1" ++ ":" ++ "shop-a.com",
           { userId := "u1", email := "u@a.com", name := "U", picture := "pic",
             domain := "shop-a.com", googleAccessToken := some "at",
             googleRefreshToken := some "rt",
             airtableAccessToken := none, airtableRefreshToken := none,
             iat := 5000 / 1000, exp := some (5000 / 1000 + 24 * 60 * 60) })⟩ ∧
      (GoogleCallbackResponse.redirect
        ("https://".toList ++ "shop-a.com".toList ++ "/?token=".toList ++ tok)).status = 302 ∧
      ∃ p : Payload, verifyJWT cCrypto cCodec tok "s".toList 5000 = .ok p ∧
        p.domain = "shop-a.com" :=
  C3_primary_flow_domain_binding cCrypto cCodec cGCodec "shop-a.com" "code" 100 5000
    ⟨some "at", some "rt"⟩ "at" ⟨"u1", "u@a.com", "U", "pic"⟩ "s".toList
    (by decide) (by decide) (by omega) rfl

/-- C5: once a secondary-flow callback has consumed (read and deleted) the
transaction state for an identifier, every later callback with the same
identifier fails with 400 `Invalid or expired authentication session` and
never reaches token exchange (the outcome is the same for every exchange
result), even inside the 10-minute TTL window. -/
theorem C5_transaction_state_single_use
    (C : CryptoApi) (PC : PayloadCodec) (exch1 : Option AirTokens)
    (code1 : Option String) (sid : String) (secret : List Char)
    (now1 : Nat) (store : Store) (sd : AirState)
    (hc1 : code1.getD "" ≠ "") (hsid : sid ≠ "")
    (hget : store.get sid = some sd) :
    (handleAirtableCallback C PC exch1 code1 (some sid) none secret now1
        store).store.get sid = none ∧
    (∀ (exch2 : Option AirTokens) (code2 : Option String) (now2 : Nat),
      code2.getD "" ≠ "" →
      handleAirtableCallback C PC exch2 code2 (some sid) none secret now2
          (handleAirtableCallback C PC exch1 code1 (some sid) none secret now1
            store).store =
        ⟨.invalidSession,
         (handleAirtableCallback C PC exch1 code1 (some sid) none secret now1
           store).store, none⟩) ∧
    AirtableCallbackResponse.invalidSession.status = 400 ∧
    AirtableCallbackResponse.invalidSession.errorMessage =
      some "Invalid or expired authentication session" := by
  have hconsumed :=
    airtableCallback_store_consumed C PC exch1 code1 sid secret now1 store sd
      hc1 hsid hget
  have hnone : (handleAirtableCallback C PC exch1 code1 (some sid) none secret
      now1 store).store.get sid = none := by
    rw [hconsumed]
    exact Store.get_delete store sid
  refine ⟨hnone, ?_, rfl, rfl⟩
  intro exch2 code2 now2 hc2
  set st1 := (handleAirtableCallback C PC exch1 code1 (some sid) none secret
    now1 store).store with hst1
  clear hst1 hconsumed
  simp [handleAirtableCallback, hc2, hsid, hnone]

/-- Witness for C5 at concrete inputs: the second callback with the same
`state` identifier fails even one millisecond later. -/
theorem C5_transaction_state_single_use_witness :
    (handleAirtableCallback cCrypto cCodec none (some "c") (some "sid1") none
        "s".toList 200 [("sid1", ⟨['t'], "shop-a.com", ['v'], 100⟩)]).store.get
      "sid1" = none ∧
    (∀ (exch2 : Option AirTokens) (code2 : Option String) (now2 : Nat),
      code2.getD "" ≠ "" →
      handleAirtableCallback cCrypto cCodec exch2 code2 (some "sid1") none
          "s".toList now2
          (handleAirtableCallback cCrypto cCodec none (some "c") (some "sid1")
            none "s".toList 200
            [("sid1", ⟨['t'], "shop-a.com", ['v'], 100⟩)]).store =
        ⟨.invalidSession,
         (handleAirtableCallback cCrypto cCodec none (some "c") (some "sid1")
           none "s".toList 200
           [("sid1", ⟨['t'], "shop-a.com", ['v'], 100⟩)]).store, none⟩) ∧
    AirtableCallbackResponse.invalidSession.status = 400 ∧
    AirtableCallbackResponse.invalidSession.errorMessage =
      some "Invalid or expired authentication session" :=
  C5_transaction_state_single_use cCrypto cCodec none (some "c") "sid1"
    "s".toList 200 [("sid1", ⟨['t'], "shop-a.com", ['v'], 100⟩)]
    ⟨['t'], "shop-a.com", ['v'], 100⟩ (by decide) (by decide) (by decide)

/-- C6: both OAuth callbacks reject transaction state older than 10 minutes
with 400 `Authentication session expired`: the primary callback from the
state's embedded timestamp, the secondary callback from the stored record's
timestamp even after the record was retrieved and deleted; neither path
exchanges the code or issues a token (the outcome is the same for every
exchange/profile result and performs no session write). -/
theorem C6_stale_state_rejected :
    (∀ (C : CryptoApi) (PC : PayloadCodec) (GS : GStateCodec)
        (exchange : Option GoogleTokens) (profile : Option GoogleUser)
        (code st : String) (secret : List Char) (nowMs : Nat) (sd : GoogleState),
      code ≠ "" → st ≠ "" → GS.dec st = some sd →
      nowMs - sd.timestamp > 10 * 60 * 1000 →
      handleGoogleCallback C PC GS exchange profile (some code) (some st) none
          secret nowMs = ⟨.sessionExpired, none⟩ ∧
      GoogleCallbackResponse.sessionExpired.status = 400 ∧
      GoogleCallbackResponse.sessionExpired.errorMessage =
        some "Authentication session expired") ∧
    (∀ (C : CryptoApi) (PC : PayloadCodec) (exchange : Option AirTokens)
        (code sid : String) (secret : List Char) (nowMs : Nat) (store : Store)
        (sd : AirState),
      code ≠ "" → sid ≠ "" → store.get sid = some sd →
      nowMs - sd.timestamp > 10 * 60 * 1000 →
      handleAirtableCallback C PC exchange (some code) (some sid) none secret
          nowMs store = ⟨.sessionExpired, store.delete sid, none⟩ ∧
      AirtableCallbackResponse.sessionExpired.status = 400 ∧
      AirtableCallbackResponse.sessionExpired.errorMessage =
        some "Authentication session expired") := by
  constructor
  · intro C PC GS exchange profile code st secret nowMs sd hcode hst hdec hold
    exact ⟨by simp [handleGoogleCallback, hcode, hst, hdec, hold], rfl, rfl⟩
  · intro C PC exchange code sid secret nowMs store sd hcode hsid hget hold
    exact ⟨by simp [handleAirtableCallback, hcode, hsid, hget, hold], rfl, rfl⟩

/-- Witness for C6 at concrete inputs: state stamped at time 0 presented at
11 minutes is rejected on both callbacks. -/
theorem C6_stale_state_rejected_witness :
    (handleGoogleCallback cCrypto cCodec cGCodec (some ⟨some "at", none⟩)
        (some ⟨"u1", "u@a.com", "U", "pic"⟩) (some "c")
        (some (cGCodec.enc ⟨"shop-a.com", 0⟩)) none "s".toList (11 * 60 * 1000) =
      ⟨.sessionExpired, none⟩ ∧
      GoogleCallbackResponse.sessionExpired.status = 400 ∧
      GoogleCallbackResponse.sessionExpired.errorMessage =
        some "Authentication session expired") ∧
    (handleAirtableCallback cCrypto cCodec (some ⟨some "at", none⟩) (some "c")
        (some "sid1") none "s".toList (11 * 60 * 1000)
        [("sid1", ⟨['t'], "shop-a.com", ['v'], 0⟩)] =
      ⟨.sessionExpired,
       Store.delete [("sid1", ⟨['t'], "shop-a.com", ['v'], 0⟩)] "sid1",
       none⟩ ∧
      AirtableCallbackResponse.sessionExpired.status = 400 ∧
      AirtableCallbackResponse.sessionExpired.errorMessage =
        some "Authentication session expired") :=
  ⟨C6_stale_state_rejected.1 cCrypto cCodec cGCodec (some ⟨some "at", none⟩)
      (some ⟨"u1", "u@a.com", "U", "pic"⟩) "c" (cGCodec.enc ⟨"shop-a.com", 0⟩)
      "s".toList (11 * 60 * 1000) ⟨"shop-a.com", 0⟩ (by decide)
      (cGCodec.enc_ne ⟨"shop-a.com", 0⟩) (cGCodec.dec_enc ⟨"shop-a.com", 0⟩)
      (by decide),
   C6_stale_state_rejected.2 cCrypto cCodec (some ⟨some "at", none⟩) "c" "sid1"
      "s".toList (11 * 60 * 1000) [("sid1", ⟨['t'], "shop-a.com", ['v'], 0⟩)]
      ⟨['t'], "shop-a.com", ['v'], 0⟩ (by decide) (by decide) (by decide)
      (by decide)⟩

/-- C7 (amended): `verifyJWT` succeeds only on a three-part token whose
signature verifies; it fails `invalidFormat` on wrong shape and
`invalidSignature` on a signature mismatch, exactly as claimed — but the
expiry rule is weaker than claimed: the check is guarded by the JavaScript
truthiness of `payload.exp` and uses a strict `<`, so a payload with no
`exp`, with `exp = 0`, or with `exp` equal to the current time is
accepted; `expired` is returned exactly when a nonzero `exp` is strictly
in the past. -/
theorem C7_verify_token_checks (C : CryptoApi) (PC : PayloadCodec)
    (token secret : List Char) (nowMs : Nat) :
    ((splitOnDot token).length ≠ 3 →
      verifyJWT C PC token secret nowMs = .error .invalidFormat) ∧
    (∀ h1 pl sg, splitOnDot token = [h1, pl, sg] →
      base64urlDecode sg ≠ C.hmacSHA256 secret (h1 ++ '.' :: pl) →
      verifyJWT C PC token secret nowMs = .error .invalidSignature) ∧
    (∀ h1 pl sg p, splitOnDot token = [h1, pl, sg] →
      base64urlDecode sg = C.hmacSHA256 secret (h1 ++ '.' :: pl) →
      PC.parse (base64urlDecode pl) = some p →
      (verifyJWT C PC token secret nowMs = .ok p ↔
        (p.exp = none ∨ p.exp = some 0 ∨ ∃ e, p.exp = some e ∧ nowMs ≤ e * 1000)) ∧
      (verifyJWT C PC token secret nowMs = .error .expired ↔
        ∃ e, p.exp = some e ∧ e ≠ 0 ∧ e * 1000 < nowMs)) := by
  refine ⟨?_, ?_, ?_⟩
  · intro hlen
    rcases hsp : splitOnDot token with _ | ⟨a, _ | ⟨b, _ | ⟨c, _ | ⟨d, rest⟩⟩⟩⟩
    · simp [verifyJWT, hsp]
    · simp [verifyJWT, hsp]
    · simp [verifyJWT, hsp]
    · simp [hsp] at hlen
    · simp [verifyJWT, hsp]
  · intro h1 pl sg hsp hne
    simp [verifyJWT, hsp, hne]
  · intro h1 pl sg p hsp hsig hparse
    have hV : verifyJWT C PC token secret nowMs =
        (match p.exp with
         | some e => if e ≠ 0 ∧ e * 1000 < nowMs then .error .expired else .ok p
         | none => .ok p) := by
      simp [verifyJWT, hsp, hsig, hparse]
    rcases he : p.exp with _ | e
    · rw [he] at hV
      simp only [] at hV
      constructor
      · rw [hV]
        simp [he]
      · rw [hV]
        simp
    · rw [he] at hV
      simp only [] at hV
      by_cases hcond : e ≠ 0 ∧ e * 1000 < nowMs
      · rw [if_pos hcond] at hV
        constructor
        · apply iff_of_false
          · rw [hV]; simp
          · rintro (h | h | ⟨e2, he2, hle⟩)
            · exact Option.noConfusion h
            · injection h with h; omega
            · injection he2 with he2; omega
        · apply iff_of_true
          · rw [hV]
          · exact ⟨e, rfl, hcond⟩
      · rw [if_neg hcond] at hV
        constructor
        · apply iff_of_true
          · rw [hV]
          · rcases Decidable.em (e = 0) with h0 | h0
            · exact Or.inr (Or.inl (by rw [h0]))
            · exact Or.inr (Or.inr ⟨e, rfl, by omega⟩)
        · apply iff_of_false
          · rw [hV]; simp
          · rintro ⟨e2, he2, hne2, hlt⟩
            injection he2 with he2; omega

/-- C7 counterexample: a concrete signed token whose payload carries no
`exp` claim at all is accepted by `verifyJWT`, refuting the claim that a
token without a future `exp` is never accepted. -/
theorem C7_missing_exp_accepted :
    payloadNoExp.exp = none ∧
    verifyJWT cCrypto cCodec (signJWT cCrypto cCodec payloadNoExp "s".toList)
      "s".toList 1000 = .ok payloadNoExp :=
  ⟨rfl, verify_signJWT cCrypto cCodec payloadNoExp "s".toList 1000
    (fun _ he => Option.noConfusion he)⟩

/-- Witness for C7 at a concrete input: a one-part token is rejected as
malformed. -/
theorem C7_verify_token_checks_witness :
    verifyJWT cCrypto cCodec ['x'] "s".toList 0 = .error .invalidFormat :=
  (C7_verify_token_checks cCrypto cCodec ['x'] "s".toList 0).1 (by decide)

/-- C8: round-trip law — signing a claim set (with the `iat`/`exp` that
issuance adds: `iat = now`, `exp = now + 24h`) and verifying the result at
the same clock succeeds and returns a payload structurally equal to the
input claims. -/
theorem C8_sign_verify_roundtrip (C : CryptoApi) (PC : PayloadCodec)
    (p : Payload) (secret : List Char) (nowMs : Nat) :
    verifyJWT C PC
        (signJWT C PC
          { p with iat := nowMs / 1000, exp := some (nowMs / 1000 + 24 * 60 * 60) }
          secret) secret nowMs =
      .ok { p with iat := nowMs / 1000, exp := some (nowMs / 1000 + 24 * 60 * 60) } := by
  apply verify_signJWT
  intro e he
  have he2 : some (nowMs / 1000 + 24 * 60 * 60) = some e := he
  injection he2 with he3
  right
  omega

/-- C9: the PKCE verifier is 32 random bytes base64url-encoded without
padding — it has length 43 and contains no `+`, `/` or `=` — and for every
verifier string the derived challenge is the SHA-256 digest of the
verifier's bytes encoded the same way. -/
theorem C9_pkce_generator (randomBytes : List Nat)
    (h32 : randomBytes.length = 32) (C : CryptoApi) (v : List Char) :
    (generateCodeVerifier randomBytes).length = 43 ∧
    (∀ c ∈ generateCodeVerifier randomBytes, c ≠ '+' ∧ c ≠ '/' ∧ c ≠ '=') ∧
    generateCodeChallenge C v = base64urlEncode (C.sha256 (v.map Char.toNat)) := by
  refine ⟨?_, ?_, rfl⟩
  · rw [generateCodeVerifier, base64urlEncode_length, h32]
  · intro c hc
    have h : c ≠ '+' ∧ c ≠ '/' ∧ c ≠ '=' ∧ c ≠ '.' := base64urlEncode_chars hc
    exact ⟨h.1, h.2.1, h.2.2.1⟩

/-- Witness for C9 at a concrete input: 32 concrete bytes. -/
theorem C9_pkce_generator_witness :
    (generateCodeVerifier (List.range 32)).length = 43 ∧
    (∀ c ∈ generateCodeVerifier (List.range 32), c ≠ '+' ∧ c ≠ '/' ∧ c ≠ '=') ∧
    generateCodeChallenge cCrypto ['v'] =
      base64urlEncode (cCrypto.sha256 (['v'].map Char.toNat)) :=
  C9_pkce_generator (List.range 32) (by decide) cCrypto ['v']

/-- C10: a `POST /api/verify-token` success response exposes exactly the
five identity fields and never the stored provider credentials: two
accepted tokens whose verified claims agree on `userId`, `email`, `name`,
`picture` and `domain` (differing arbitrarily in the credential fields)
produce identical responses. -/
theorem C10_no_credential_leak
    (verify : List Char → Option Payload) (t1 t2 : List Char) (d : String)
    (p1 p2 : Payload) (ht1 : t1 ≠ []) (ht2 : t2 ≠ []) (hd : d ≠ "")
    (h1 : verify t1 = some p1) (h2 : verify t2 = some p2)
    (hu : p1.userId = p2.userId) (he : p1.email = p2.email)
    (hn : p1.name = p2.name) (hp : p1.picture = p2.picture)
    (hdm : p1.domain = p2.domain) :
    handleVerifyToken verify (some t1) (some d) =
      handleVerifyToken verify (some t2) (some d) ∧
    (∀ p t, t ≠ [] → verify t = some p → p.domain = d →
      handleVerifyToken verify (some t) (some d) =
        .success ⟨p.userId, p.email, p.name, p.picture, p.domain⟩) := by
  constructor
  · by_cases hdom : p1.domain = d
    · have hdom2 : p2.domain = d := by rw [← hdm]; exact hdom
      simp [handleVerifyToken, ht1, ht2, hd, h1, h2, hdom, hdom2, hu, he, hn,
        hp, hdm]
    · have hdom2 : p2.domain ≠ d := by rw [← hdm]; exact hdom
      simp [handleVerifyToken, ht1, ht2, hd, h1, h2, hdom, hdom2]
  · intro p t ht hv hdom
    simp [handleVerifyToken, ht, hd, hv, hdom]

/-- Witness for C10 at concrete inputs: two tokens whose claims differ only
in the stored Google/Airtable credentials get identical responses. -/
theorem C10_no_credential_leak_witness :
    handleVerifyToken
        (fun t => if t = ['1'] then some payloadA else some payloadB)
        (some ['1']) (some "shop-a.com") =
      handleVerifyToken
        (fun t => if t = ['1'] then some payloadA else some payloadB)
        (some ['2']) (some "shop-a.com") :=
  (C10_no_credential_leak
      (fun t => if t = ['1'] then some payloadA else some payloadB)
      ['1'] ['2'] "shop-a.com" payloadA payloadB (by decide) (by decide)
      (by decide) (by decide) (by decide) rfl rfl rfl rfl rfl).1

/-- C2 (amended): the domain-authorization check is performed — answering
403 `Token domain mismatch` whatever the other inputs and upstream
outcomes, so before any side effect or disclosure — by
`POST /api/verify-token`, `/api/sheets/create`,
`/api/airtable/create-record`, `/api/airtable/setup-info` and the seven
per-domain Stripe routes (create-product, create-payment-intent,
products, create-subscription, create-subscription-intent, subscriptions,
cancel-subscription); but four protected routes perform no domain-equality
check at all: after bare token verification,
`POST /api/stripe/global-analytics` and `/api/stripe/global-products`
disclose cross-domain data, and `/api/airtable/bases` and
`/api/airtable/tables` act on the Airtable credential bound in the
claims, identically for every requesting domain. -/
theorem C2_protected_operations
    (verify : List Char → Option Payload) (t : List Char) (p : Payload)
    (ht : t ≠ []) (hv : verify t = some p) :
    (∀ (d reqD : String), d ≠ "" → p.domain ≠ d →
      handleVerifyToken verify (some t) (some d) = .domainMismatch ∧
      (∀ upstream : Bool,
        handleSheetsCreate verify (some t) (some d) reqD upstream =
          .domainMismatch) ∧
      (∀ (α : Type) (apiKey baseId : Option String)
          (upstream : String → Option α), baseId.getD "" ≠ "" →
        handleAirtableCreateRecord verify (some t) (some d) reqD apiKey baseId
          upstream = .domainMismatch) ∧
      handleAirtableSetupInfo verify (some t) (some d) reqD =
        .domainMismatch ∧
      (∀ (α : Type) (upstream : Option α),
        handleStripeCreateProduct verify (some t) (some d) reqD true upstream =
          .domainMismatch) ∧
      (∀ (α : Type) (priceId : Option String) (upstream : Option α),
        handleStripeCreatePaymentIntent verify (some t) (some d) reqD true
          priceId upstream = .domainMismatch) ∧
      (∀ (α : Type) (upstream : Option (List (String × α))),
        handleStripeGetProducts verify (some t) (some d) reqD true upstream =
          .domainMismatch) ∧
      (∀ (α : Type) (upstream : Option α),
        handleStripeCreateSubscription verify (some t) (some d) reqD true
          upstream = .domainMismatch) ∧
      (∀ (α : Type) (priceId customer : Option String) (create : Option α),
        handleStripeCreateSubscriptionIntent verify (some t) (some d) reqD
          true priceId customer create = .domainMismatch) ∧
      (∀ (α : Type) (customer : Option (Option String))
          (subs : String → Option (List (String × α))),
        handleStripeGetSubscriptions verify (some t) (some d) reqD true
          customer subs = .domainMismatch) ∧
      (∀ (α : Type) (subscriptionId : Option String) (retrieve : Option String)
          (update : Option α), subscriptionId.getD "" ≠ "" →
        handleStripeCancelSubscription verify (some t) (some d) subscriptionId
          reqD true retrieve update = .domainMismatch) ∧
      VerifyTokenResponse.domainMismatch.status = 403 ∧
      SheetsCreateResponse.domainMismatch.status = 403 ∧
      (AirtableCreateRecordResponse.domainMismatch :
        AirtableCreateRecordResponse Unit).status = 403 ∧
      SetupInfoResponse.domainMismatch.status = 403 ∧
      (StripeRouteResponse.domainMismatch : StripeRouteResponse Unit).status =
        403 ∧
      (CancelSubscriptionResponse.domainMismatch :
        CancelSubscriptionResponse Unit).status = 403) ∧
    (∀ (α : Type) (data : α) (reqD1 reqD2 : String),
      handleStripeGlobalAnalytics verify (some t) reqD1 true data =
        .success data ∧
      handleStripeGlobalAnalytics verify (some t) reqD1 true data =
        handleStripeGlobalAnalytics verify (some t) reqD2 true data) ∧
    (∀ (α : Type) (products : List (String × α)) (reqD1 reqD2 : String),
      handleStripeGlobalProducts verify (some t) reqD1 true products =
        .success products ∧
      handleStripeGlobalProducts verify (some t) reqD1 true products =
        handleStripeGlobalProducts verify (some t) reqD2 true products) ∧
    (∀ (a : String) (bs : List String) (fetch : String → Option (List String))
        (reqD1 reqD2 : String),
      p.airtableAccessToken = some a → a ≠ "" → fetch a = some bs →
      handleAirtableBases verify (some t) reqD1 fetch = .success a bs ∧
      handleAirtableBases verify (some t) reqD1 fetch =
        handleAirtableBases verify (some t) reqD2 fetch) ∧
    (∀ (a : String) (baseId : Option String) (ts : List String)
        (fetch : String → String → Option (List String)) (reqD1 reqD2 : String),
      p.airtableAccessToken = some a → a ≠ "" → baseId.getD "" ≠ "" →
      fetch a (baseId.getD "") = some ts →
      handleAirtableTables verify (some t) reqD1 baseId fetch =
        .success a ts ∧
      handleAirtableTables verify (some t) reqD1 baseId fetch =
        handleAirtableTables verify (some t) reqD2 baseId fetch) := by
  refine ⟨?_, ?_, ?_, ?_, ?_⟩
  · intro d reqD hd hdom
    refine ⟨by simp [handleVerifyToken, ht, hd, hv, hdom], ?_, ?_, ?_, ?_, ?_,
      ?_, ?_, ?_, ?_, ?_, rfl, rfl, rfl, rfl, rfl, rfl⟩
    · intro upstream
      simp [handleSheetsCreate, ht, hd, hv, hdom]
    · intro α apiKey baseId upstream hbase
      simp [handleAirtableCreateRecord, ht, hd, hv, hdom, hbase]
    · simp [handleAirtableSetupInfo, ht, hd, hv, hdom]
    · intro α upstream
      simp [handleStripeCreateProduct, ht, hd, hv, hdom]
    · intro α priceId upstream
      simp [handleStripeCreatePaymentIntent, ht, hd, hv, hdom]
    · intro α upstream
      simp [handleStripeGetProducts, ht, hd, hv, hdom]
    · intro α upstream
      simp [handleStripeCreateSubscription, ht, hd, hv, hdom]
    · intro α priceId customer create
      simp [handleStripeCreateSubscriptionIntent, ht, hd, hv, hdom]
    · intro α customer subs
      simp [handleStripeGetSubscriptions, ht, hd, hv, hdom]
    · intro α subscriptionId retrieve update hsub
      simp [handleStripeCancelSubscription, ht, hd, hv, hdom, hsub]
  · intro α data reqD1 reqD2
    exact ⟨by simp [handleStripeGlobalAnalytics, ht, hv], rfl⟩
  · intro α products reqD1 reqD2
    exact ⟨by simp [handleStripeGlobalProducts, ht, hv], rfl⟩
  · intro a bs fetch reqD1 reqD2 hat ha hf
    exact ⟨by simp [handleAirtableBases, hv, hat, ha, hf], rfl⟩
  · intro a baseId ts fetch reqD1 reqD2 hat ha hbase hf
    exact ⟨by simp [handleAirtableTables, hv, hat, ha, hbase, hf], rfl⟩

/-- C2 counterexample: concrete requests arriving from requesting domain
`shop-b.com` with tokens bound to `shop-a.com`: the global-analytics route
discloses its cross-domain dataset and the bases route uses the bound
Airtable credential — no `Token domain mismatch` rejection occurs,
refuting the claim that every protected operation performs the
domain-equality check before disclosure. -/
theorem C2_missing_domain_check :
    payloadA.domain = "shop-a.com" ∧ payloadB.domain = "shop-a.com" ∧
    handleStripeGlobalAnalytics (fun _ => some payloadA) (some ['t'])
        "shop-b.com" true ["all-domain-analytics"] =
      .success ["all-domain-analytics"] ∧
    handleAirtableBases (fun _ => some payloadB) (some ['t']) "shop-b.com"
        (fun _ => some ["base1"]) = .success "air" ["base1"] :=
  ⟨rfl, rfl, rfl, by rfl⟩

/-- Witness for C2 at concrete inputs: three of the domain-guarded
operations reject a cross-domain request with 403 `Token domain mismatch`. -/
theorem C2_protected_operations_witness :
    handleVerifyToken (fun _ => some payloadB) (some ['t'])
        (some "shop-b.com") = .domainMismatch ∧
    handleSheetsCreate (fun _ => some payloadB) (some ['t'])
        (some "shop-b.com") "shop-b.com" true = .domainMismatch ∧
    handleStripeCreateProduct (fun _ => some payloadB) (some ['t'])
        (some "shop-b.com") "shop-b.com" true (some ()) = .domainMismatch :=
  let h := (C2_protected_operations (fun _ => some payloadB) ['t'] payloadB
      (by decide) rfl).1 "shop-b.com" "shop-b.com" (by decide) (by decide)
  ⟨h.1, h.2.1 true, h.2.2.2.2.1 Unit (some ())⟩

end MDM
